import Mathlib

/-!
Shallow embedding of the DM-based support ticket system
(file `src/cogs/core/support.py`) and of the guided order intake flow
(file `src/cogs/commands/orders.py`).

Python dictionaries are modelled as association lists: `dictGet` is
`dict.get(k)`, `dictInsert` is `d[k] = v`, and `dictPop` is
`d.pop(k, None)`.  Discord I/O is modelled by explicit environment
values describing the outcome of each platform call (channel fetches,
channel creation, transcript generation, channel deletion), so every
operation of the cog becomes a pure function from a store state and an
environment to a new store state.
-/

/-- Python `dict.get(k)`: the value stored at key `k`, if any. -/
def dictGet {κ α : Type} [DecidableEq κ] (k : κ) : List (κ × α) → Option α
  | [] => none
  | p :: t => if p.1 = k then some p.2 else dictGet k t

/-- Python `d[k] = v`: replace the entry at key `k` if present, else append. -/
def dictInsert {κ α : Type} [DecidableEq κ] (k : κ) (v : α) : List (κ × α) → List (κ × α)
  | [] => [(k, v)]
  | p :: t => if p.1 = k then (k, v) :: t else p :: dictInsert k v t

/-- Python `d.pop(k, None)` restricted to its effect on the dictionary:
remove every entry whose key is `k` (a Python dict holds at most one). -/
def dictPop {κ α : Type} [DecidableEq κ] (k : κ) : List (κ × α) → List (κ × α)
  | [] => []
  | p :: t => if p.1 = k then dictPop k t else p :: dictPop k t

theorem dictGet_dictInsert_self {κ α : Type} [DecidableEq κ] (k : κ) (v : α)
    (l : List (κ × α)) : dictGet k (dictInsert k v l) = some v := by
  induction l with
  | nil => simp [dictInsert, dictGet]
  | cons p t ih =>
    by_cases h : p.1 = k
    · simp [dictInsert, h, dictGet]
    · simp [dictInsert, h, dictGet, ih]

theorem dictGet_dictInsert_ne {κ α : Type} [DecidableEq κ] {k k' : κ} (v : α)
    (l : List (κ × α)) (h : k' ≠ k) :
    dictGet k' (dictInsert k v l) = dictGet k' l := by
  have h' : k ≠ k' := Ne.symm h
  induction l with
  | nil => simp [dictInsert, dictGet, h']
  | cons p t ih =>
    by_cases hp : p.1 = k
    · subst hp
      simp [dictInsert, dictGet, h']
    · by_cases hp' : p.1 = k'
      · simp [dictInsert, hp, dictGet, hp', h]
      · simp [dictInsert, hp, dictGet, hp', ih]

theorem dictGet_dictPop_self {κ α : Type} [DecidableEq κ] (k : κ)
    (l : List (κ × α)) : dictGet k (dictPop k l) = none := by
  induction l with
  | nil => simp [dictPop, dictGet]
  | cons p t ih =>
    by_cases h : p.1 = k
    · simp [dictPop, h, ih]
    · simp [dictPop, h, dictGet, ih]

theorem dictGet_dictPop_ne {κ α : Type} [DecidableEq κ] {k k' : κ}
    (l : List (κ × α)) (h : k' ≠ k) :
    dictGet k' (dictPop k l) = dictGet k' l := by
  have h' : k ≠ k' := Ne.symm h
  induction l with
  | nil => simp [dictPop]
  | cons p t ih =>
    by_cases hp : p.1 = k
    · subst hp
      simp [dictPop, dictGet, h', ih]
    · by_cases hp' : p.1 = k'
      · simp [dictPop, hp, dictGet, hp', h, ih]
      · simp [dictPop, hp, dictGet, hp', ih]

/-- A dictionary has no duplicate keys (always true of a Python dict). -/
def KeysNodup {κ α : Type} (l : List (κ × α)) : Prop :=
  (l.map Prod.fst).Nodup

theorem mem_keys_dictInsert {κ α : Type} [DecidableEq κ] {x k : κ} (v : α)
    (l : List (κ × α)) (h : x ∈ (dictInsert k v l).map Prod.fst) :
    x = k ∨ x ∈ l.map Prod.fst := by
  induction l with
  | nil => simpa [dictInsert] using h
  | cons p t ih =>
    by_cases hp : p.1 = k
    · simp only [dictInsert, hp, if_true, List.map_cons, List.mem_cons] at h
      rcases h with h | h
      · exact Or.inl h
      · exact Or.inr (List.mem_cons_of_mem _ h)
    · simp only [dictInsert, hp, if_false, List.map_cons, List.mem_cons] at h
      rcases h with h | h
      · exact Or.inr (by simp [h])
      · rcases ih h with h' | h'
        · exact Or.inl h'
        · exact Or.inr (List.mem_cons_of_mem _ h')

theorem keys_dictPop_subset {κ α : Type} [DecidableEq κ] (k : κ)
    (l : List (κ × α)) : (dictPop k l).map Prod.fst ⊆ l.map Prod.fst := by
  induction l with
  | nil => simp [dictPop]
  | cons p t ih =>
    by_cases hp : p.1 = k
    · simp only [dictPop, hp, if_true, List.map_cons]
      exact ih.trans (List.subset_cons_self _ _)
    · simp only [dictPop, hp, if_false, List.map_cons]
      exact List.cons_subset_cons _ ih

theorem keysNodup_dictInsert {κ α : Type} [DecidableEq κ] (k : κ) (v : α)
    {l : List (κ × α)} (h : KeysNodup l) : KeysNodup (dictInsert k v l) := by
  induction l with
  | nil => simp [dictInsert, KeysNodup]
  | cons p t ih =>
    simp only [KeysNodup, List.map_cons, List.nodup_cons] at h
    by_cases hp : p.1 = k
    · subst hp
      simp only [dictInsert, if_true]
      simpa [KeysNodup] using h
    · have ht := ih h.2
      simp only [dictInsert, hp, if_false]
      simp only [KeysNodup, List.map_cons, List.nodup_cons]
      refine ⟨?_, ht⟩
      intro hmem
      rcases mem_keys_dictInsert v t hmem with hx | hx
      · exact hp hx
      · exact h.1 hx

theorem keysNodup_dictPop {κ α : Type} [DecidableEq κ] (k : κ)
    {l : List (κ × α)} (h : KeysNodup l) : KeysNodup (dictPop k l) := by
  induction l with
  | nil => simp [dictPop, KeysNodup]
  | cons p t ih =>
    simp only [KeysNodup, List.map_cons, List.nodup_cons] at h
    by_cases hp : p.1 = k
    · simp only [dictPop, hp, if_true]
      exact ih h.2
    · simp only [dictPop, hp, if_false]
      simp only [KeysNodup, List.map_cons, List.nodup_cons]
      exact ⟨fun hmem => h.1 (keys_dictPop_subset k t hmem), ih h.2⟩

/-- The in-memory Ticket Store of the `Support` cog: `tickets` maps a
user id to its ticket channel id, `channel_to_user` maps the channel id
back to the user id, and `channel_service` maps a channel id to the
service label of an order ticket. -/
structure TicketStore where
  tickets : List (Nat × Nat)
  channel_to_user : List (Nat × Nat)
  channel_service : List (Nat × String)
deriving DecidableEq

/-- The bijection invariant claimed by the spec for the two id maps. -/
def Bijective (st : TicketStore) : Prop :=
  ∀ u c : Nat, dictGet u st.tickets = some c ↔ dictGet c st.channel_to_user = some u

/-- The three `pop` calls shared by stale-mapping cleanup and ticket
closure: remove user `uid` from `tickets` and channel `c` from
`channel_to_user` and `channel_service`. -/
def removeTicketEntries (st : TicketStore) (uid c : Nat) : TicketStore :=
  { tickets := dictPop uid st.tickets
    channel_to_user := dictPop c st.channel_to_user
    channel_service := dictPop c st.channel_service }

/-- Outcome of resolving the remembered ticket channel in `handle_dm`:
the channel resolves to a usable text channel, resolves to nothing
usable (`None` or a non-text channel), raises `discord.NotFound`, or
raises some other exception (caught by the generic handler). -/
inductive ChanCheck
  | ok
  | gone
  | notFound
  | err
deriving DecidableEq

/-- Environment for one `handle_dm` call: the outcome of the existing
channel check (used only when the user already has a ticket), and the
channel id produced by `create_ticket_channel`, `none` when no guild is
available or channel creation fails. -/
structure DmEnv where
  chanCheck : ChanCheck
  createResult : Option Nat
deriving DecidableEq

/-- Store effect of `Support.create_new_ticket`: on successful channel
creation, record the user to channel mapping (and the service label if
one was given); on failure, leave the store untouched. -/
def create_new_ticket (st : TicketStore) (u : Nat) (serviceName : Option String)
    (createResult : Option Nat) : TicketStore :=
  match createResult with
  | none => st
  | some c =>
    { tickets := dictInsert u c st.tickets
      channel_to_user := dictInsert c u st.channel_to_user
      channel_service :=
        match serviceName with
        | some s => dictInsert c s st.channel_service
        | none => st.channel_service }

/-- Store effect of `Support.handle_dm`: if the user has a remembered
ticket whose channel resolves, relay and return; if the channel is gone
or not found, drop the stale mapping and fall through to ticket
creation; if the check raises an unexpected error, fall through to
ticket creation without any cleanup (the generic `except` branch). -/
def handle_dm (st : TicketStore) (u : Nat) (env : DmEnv) : TicketStore :=
  match dictGet u st.tickets with
  | some c =>
    match env.chanCheck with
    | ChanCheck.ok => st
    | ChanCheck.gone => create_new_ticket (removeTicketEntries st u c) u none env.createResult
    | ChanCheck.notFound => create_new_ticket (removeTicketEntries st u c) u none env.createResult
    | ChanCheck.err => create_new_ticket st u none env.createResult
  | none => create_new_ticket st u none env.createResult

/-- Environment for one `create_ticket_from_order` call: whether the
existing ticket channel (if any) resolves, and the channel id produced
by `create_ticket_channel` (`none` on failure). -/
structure OrderEnv where
  existingResolves : Bool
  createResult : Option Nat
deriving DecidableEq

/-- Store effect and return value of `Support.create_ticket_from_order`:
if the user already has a ticket whose channel resolves, return it
unchanged; otherwise create a channel and record the three mappings
(note the stale `channel_to_user` entry is never cleaned on the
unresolvable-existing-channel path). -/
def create_ticket_from_order (st : TicketStore) (u : Nat) (serviceName : String)
    (env : OrderEnv) : TicketStore × Option Nat :=
  match dictGet u st.tickets with
  | some c =>
    if env.existingResolves then (st, some c)
    else
      match env.createResult with
      | none => (st, none)
      | some c' =>
        ({ tickets := dictInsert u c' st.tickets
           channel_to_user := dictInsert c' u st.channel_to_user
           channel_service := dictInsert c' serviceName st.channel_service }, some c')
  | none =>
    match env.createResult with
    | none => (st, none)
    | some c' =>
      ({ tickets := dictInsert u c' st.tickets
         channel_to_user := dictInsert c' u st.channel_to_user
         channel_service := dictInsert c' serviceName st.channel_service }, some c')

/-- Store effect of `Support.handle_ticket_channel_message` when the
user lookup raises `discord.NotFound`: drop the stale mapping; in every
other case the store is untouched. -/
def handle_channel_message_cleanup (st : TicketStore) (c : Nat)
    (userNotFound : Bool) : TicketStore :=
  match dictGet c st.channel_to_user with
  | none => st
  | some uid => if userNotFound then removeTicketEntries st uid c else st

/-- Python `set.discard c` on the closing-channels set (modelled as a
list without duplicates): remove every occurrence of `c`. -/
def setDiscard (c : Nat) : List Nat → List Nat
  | [] => []
  | x :: t => if x = c then setDiscard c t else x :: setDiscard c t

theorem not_mem_setDiscard_self (c : Nat) (l : List Nat) : c ∉ setDiscard c l := by
  induction l with
  | nil => simp [setDiscard]
  | cons x t ih =>
    by_cases hx : x = c
    · simpa [setDiscard, hx] using ih
    · simp [setDiscard, hx, ih, Ne.symm hx]

theorem mem_setDiscard_of_ne {x c : Nat} (l : List Nat) (h : x ≠ c) :
    x ∈ setDiscard c l ↔ x ∈ l := by
  induction l with
  | nil => simp [setDiscard]
  | cons y t ih =>
    by_cases hy : y = c
    · subst hy
      simp [setDiscard, ih, h]
    · simp [setDiscard, hy, ih]

/-- Outcome of `bot.fetch_user` inside `close_ticket`: the user is
found, the call raises `discord.NotFound` (caught, `user = None`), or
it raises some other exception (uncaught: it propagates through the
`finally` block that releases the closing guard). -/
inductive UserFetch
  | found
  | notFound
  | raised
deriving DecidableEq

/-- Environment for one `close_ticket` call: the user fetch outcome,
whether `generate_transcript` returns a path (`true`) or `None`
(`false`), and whether `channel.delete` succeeds. -/
structure CloseEnv where
  userFetch : UserFetch
  transcript : Bool
  deleteOk : Bool
deriving DecidableEq

/-- Observable milestones of one `close_ticket` call, in program order.
Best-effort notifications (closure DM, staff log post) are omitted:
they touch no shared state and no claim mentions them. -/
inductive CloseEvent
  | alreadyClosingResp
  | notTicketResp
  | transcriptAttempt
  | transcriptFailResp
  | storeRemoved
  | snapshotSaved
  | deleteAttempt
  | deleteFailWarn
  | successResp
deriving DecidableEq

/-- Result of one `close_ticket` call: the store, the closing-guard
set, and the ordered list of observable milestones. -/
structure CloseResult where
  store : TicketStore
  closing : List Nat
  events : List CloseEvent
deriving DecidableEq

/-- Big-step model of `Support.close_ticket` run to completion in
isolation: guard check-and-insert, user lookup, transcript generation,
store removal plus snapshot save, channel delete attempt, and the
`finally` release of the guard on every exit path (including the
propagating-exception path of the user fetch). -/
def close_ticket (st : TicketStore) (closing : List Nat) (c : Nat)
    (env : CloseEnv) : CloseResult :=
  if c ∈ closing then ⟨st, closing, [CloseEvent.alreadyClosingResp]⟩
  else
    match dictGet c st.channel_to_user with
    | none => ⟨st, setDiscard c (c :: closing), [CloseEvent.notTicketResp]⟩
    | some uid =>
      if env.userFetch = UserFetch.raised then
        ⟨st, setDiscard c (c :: closing), []⟩
      else if env.transcript = false then
        ⟨st, setDiscard c (c :: closing),
          [CloseEvent.transcriptAttempt, CloseEvent.transcriptFailResp]⟩
      else
        ⟨removeTicketEntries st uid c, setDiscard c (c :: closing),
          [CloseEvent.transcriptAttempt, CloseEvent.storeRemoved,
            CloseEvent.snapshotSaved, CloseEvent.deleteAttempt] ++
          (if env.deleteOk then [] else [CloseEvent.deleteFailWarn]) ++
          [CloseEvent.successResp]⟩

theorem bijective_removeTicketEntries (st : TicketStore) (uid c : Nat)
    (hbij : Bijective st) (hc : dictGet c st.channel_to_user = some uid) :
    Bijective (removeTicketEntries st uid c) := by
  have ht : dictGet uid st.tickets = some c := (hbij uid c).mpr hc
  intro v d
  simp only [removeTicketEntries]
  by_cases hv : v = uid
  · subst hv
    rw [dictGet_dictPop_self]
    constructor
    · intro h
      cases h
    · intro h
      by_cases hd : d = c
      · subst hd
        rw [dictGet_dictPop_self] at h
        cases h
      · rw [dictGet_dictPop_ne _ hd] at h
        have h2 := (hbij v d).mpr h
        rw [ht] at h2
        cases h2
        exact absurd rfl hd
  · rw [dictGet_dictPop_ne _ hv]
    by_cases hd : d = c
    · subst hd
      rw [dictGet_dictPop_self]
      constructor
      · intro h
        have h2 := (hbij v d).mp h
        rw [hc] at h2
        cases h2
        exact absurd rfl hv
      · intro h
        cases h
    · rw [dictGet_dictPop_ne _ hd]
      exact hbij v d

theorem bijective_insert_pair (st : TicketStore) (u c : Nat)
    (sv : List (Nat × String)) (hbij : Bijective st)
    (hu : dictGet u st.tickets = none)
    (hc : dictGet c st.channel_to_user = none) :
    Bijective ⟨dictInsert u c st.tickets, dictInsert c u st.channel_to_user, sv⟩ := by
  intro v d
  simp only []
  by_cases hv : v = u
  · subst hv
    rw [dictGet_dictInsert_self]
    by_cases hd : d = c
    · subst hd
      rw [dictGet_dictInsert_self]
      simp
    · rw [dictGet_dictInsert_ne _ _ hd]
      constructor
      · intro h
        cases h
        exact absurd rfl hd
      · intro h
        have h2 := (hbij v d).mpr h
        rw [hu] at h2
        cases h2
  · rw [dictGet_dictInsert_ne _ _ hv]
    by_cases hd : d = c
    · subst hd
      rw [dictGet_dictInsert_self]
      constructor
      · intro h
        have h2 := (hbij v d).mp h
        rw [hc] at h2
        cases h2
      · intro h
        cases h
        exact absurd rfl hv
    · rw [dictGet_dictInsert_ne _ _ hd]
      exact hbij v d

theorem bijective_create_new_ticket (st : TicketStore) (u : Nat)
    (sn : Option String) (cr : Option Nat) (hbij : Bijective st)
    (hu : dictGet u st.tickets = none)
    (hfresh : ∀ c', cr = some c' → dictGet c' st.channel_to_user = none) :
    Bijective (create_new_ticket st u sn cr) := by
  cases cr with
  | none => exact hbij
  | some c' =>
    have hc := hfresh c' rfl
    cases sn with
    | none => exact bijective_insert_pair st u c' _ hbij hu hc
    | some s => exact bijective_insert_pair st u c' _ hbij hu hc

theorem bijective_close_ticket (st : TicketStore) (closing : List Nat)
    (c : Nat) (cenv : CloseEnv) (hbij : Bijective st) :
    Bijective (close_ticket st closing c cenv).store := by
  unfold close_ticket
  by_cases hg : c ∈ closing
  · simpa [hg] using hbij
  · simp only [hg, if_false]
    cases hcu : dictGet c st.channel_to_user with
    | none => simpa [hcu] using hbij
    | some uid =>
      by_cases hr : cenv.userFetch = UserFetch.raised
      · simpa [hcu, hr] using hbij
      · by_cases htr : cenv.transcript = false
        · simpa [hcu, hr, htr] using hbij
        · simp only [hcu, hr, htr, if_false]
          exact bijective_removeTicketEntries st uid c hbij hcu

theorem bijective_handle_channel_message_cleanup (st : TicketStore)
    (c : Nat) (unf : Bool) (hbij : Bijective st) :
    Bijective (handle_channel_message_cleanup st c unf) := by
  unfold handle_channel_message_cleanup
  cases hcu : dictGet c st.channel_to_user with
  | none => exact hbij
  | some uid =>
    cases unf with
    | false => simpa using hbij
    | true =>
      simp only [if_true]
      exact bijective_removeTicketEntries st uid c hbij hcu

theorem keysNodup_create_new_ticket (st : TicketStore) (u : Nat)
    (sn : Option String) (cr : Option Nat) (h : KeysNodup st.tickets) :
    KeysNodup (create_new_ticket st u sn cr).tickets := by
  cases cr with
  | none => exact h
  | some c => exact keysNodup_dictInsert u c h

theorem keysNodup_handle_dm (st : TicketStore) (u : Nat) (env : DmEnv)
    (h : KeysNodup st.tickets) : KeysNodup (handle_dm st u env).tickets := by
  unfold handle_dm
  cases dictGet u st.tickets with
  | none => exact keysNodup_create_new_ticket st u none env.createResult h
  | some c =>
    cases env.chanCheck with
    | ok => exact h
    | gone => exact keysNodup_create_new_ticket _ u none env.createResult (keysNodup_dictPop u h)
    | notFound => exact keysNodup_create_new_ticket _ u none env.createResult (keysNodup_dictPop u h)
    | err => exact keysNodup_create_new_ticket st u none env.createResult h

theorem keysNodup_create_ticket_from_order (st : TicketStore) (u : Nat)
    (serviceName : String) (env : OrderEnv) (h : KeysNodup st.tickets) :
    KeysNodup (create_ticket_from_order st u serviceName env).1.tickets := by
  unfold create_ticket_from_order
  cases dictGet u st.tickets with
  | none =>
    cases env.createResult with
    | none => exact h
    | some c' => exact keysNodup_dictInsert u c' h
  | some c =>
    cases env.existingResolves with
    | true => simpa using h
    | false =>
      cases env.createResult with
      | none => simpa using h
      | some c' => simpa using keysNodup_dictInsert u c' h

theorem keysNodup_close_ticket (st : TicketStore) (closing : List Nat)
    (c : Nat) (cenv : CloseEnv) (h : KeysNodup st.tickets) :
    KeysNodup (close_ticket st closing c cenv).store.tickets := by
  unfold close_ticket
  by_cases hg : c ∈ closing
  · simpa [hg] using h
  · simp only [hg, if_false]
    cases hcu : dictGet c st.channel_to_user with
    | none => simpa using h
    | some uid =>
      by_cases hr : cenv.userFetch = UserFetch.raised
      · simpa [hr] using h
      · by_cases htr : cenv.transcript = false
        · simpa [hr, htr] using h
        · simpa [hr, htr, removeTicketEntries] using keysNodup_dictPop uid h

theorem keysNodup_handle_channel_message_cleanup (st : TicketStore) (c : Nat)
    (unf : Bool) (h : KeysNodup st.tickets) :
    KeysNodup (handle_channel_message_cleanup st c unf).tickets := by
  unfold handle_channel_message_cleanup
  cases dictGet c st.channel_to_user with
  | none => exact h
  | some uid =>
    cases unf with
    | false => simpa using h
    | true => simpa [removeTicketEntries] using keysNodup_dictPop uid h

/-- Concrete pre-state for the C1 and C4 counterexamples: user 1 holds
ticket channel 100 and the two maps agree. -/
def exampleStoreOneTicket : TicketStore :=
  ⟨[(1, 100)], [(100, 1)], []⟩

theorem bijective_exampleStoreOneTicket : Bijective exampleStoreOneTicket := by
  intro u c
  simp only [exampleStoreOneTicket, dictGet]
  split_ifs with h1 h2 h2 <;> simp_all

/-- Claim C1, counterexample.  Starting from the bijective store
mapping user 1 to channel 100, a DM whose existing-channel check raises
an unexpected error (the generic `except Exception` branch of
`handle_dm`) followed by a successful creation of channel 200 leaves
`channel_to_user[100] = 1` while `tickets[1] = 200`: the maps no longer
form a bijection, so the bijection does not hold after every ticket
creation from a DM. -/
theorem bijection_after_every_operation_counterexample :
    Bijective exampleStoreOneTicket ∧
      ¬ Bijective (handle_dm exampleStoreOneTicket 1 ⟨ChanCheck.err, some 200⟩) := by
  refine ⟨bijective_exampleStoreOneTicket, ?_⟩
  intro h
  have h2 := (h 1 100).mpr (by decide)
  revert h2
  decide

/-- Claim C1 (amended).  The user-to-channel and channel-to-user maps
stay a bijection, and each user keeps at most one entry in `tickets`,
after close, after stale-mapping cleanup, after ticket creation from a
DM provided the existing-channel check did not end in the generic
`except Exception` branch while the user still had an entry, and after
ticket creation from an order provided the user had no entry or the
existing channel resolved; freshness of a newly created channel id is
assumed.  (On the two excluded paths a stale `channel_to_user` entry
survives and the bijection can break, as the counterexample shows.) -/
theorem ticket_store_bijection_amended
    (st : TicketStore) (u c : Nat) (denv : DmEnv) (oenv : OrderEnv)
    (cenv : CloseEnv) (closing : List Nat) (serviceName : String) (unf : Bool)
    (hbij : Bijective st) :
    ((∀ c', denv.createResult = some c' → dictGet c' st.channel_to_user = none) →
      (dictGet u st.tickets = none ∨ denv.chanCheck ≠ ChanCheck.err) →
      Bijective (handle_dm st u denv)) ∧
    ((∀ c', oenv.createResult = some c' → dictGet c' st.channel_to_user = none) →
      (dictGet u st.tickets = none ∨ oenv.existingResolves = true) →
      Bijective (create_ticket_from_order st u serviceName oenv).1) ∧
    Bijective (handle_channel_message_cleanup st c unf) ∧
    Bijective (close_ticket st closing c cenv).store ∧
    (KeysNodup st.tickets →
      KeysNodup (handle_dm st u denv).tickets ∧
      KeysNodup (create_ticket_from_order st u serviceName oenv).1.tickets ∧
      KeysNodup (handle_channel_message_cleanup st c unf).tickets ∧
      KeysNodup (close_ticket st closing c cenv).store.tickets) := by
  refine ⟨?_, ?_, ?_, ?_, ?_⟩
  · intro hfresh hpath
    unfold handle_dm
    cases htk : dictGet u st.tickets with
    | none =>
      exact bijective_create_new_ticket st u none denv.createResult hbij htk hfresh
    | some c0 =>
      have hcu : dictGet c0 st.channel_to_user = some u := (hbij u c0).mp htk
      have hclean : Bijective (removeTicketEntries st u c0) :=
        bijective_removeTicketEntries st u c0 hbij hcu
      have hu' : dictGet u (removeTicketEntries st u c0).tickets = none := by
        simp [removeTicketEntries, dictGet_dictPop_self]
      have hfresh' : ∀ c', denv.createResult = some c' →
          dictGet c' (removeTicketEntries st u c0).channel_to_user = none := by
        intro c' hc'
        by_cases hcc : c' = c0
        · subst hcc
          simp [removeTicketEntries, dictGet_dictPop_self]
        · simp only [removeTicketEntries]
          rw [dictGet_dictPop_ne _ hcc]
          exact hfresh c' hc'
      cases hck : denv.chanCheck with
      | ok => exact hbij
      | gone => exact bijective_create_new_ticket _ u none denv.createResult hclean hu' hfresh'
      | notFound => exact bijective_create_new_ticket _ u none denv.createResult hclean hu' hfresh'
      | err =>
        rcases hpath with hpath | hpath
        · rw [htk] at hpath
          cases hpath
        · exact absurd hck hpath
  · intro hfresh hpath
    unfold create_ticket_from_order
    cases htk : dictGet u st.tickets with
    | none =>
      cases hcr : oenv.createResult with
      | none => exact hbij
      | some c' =>
        exact bijective_insert_pair st u c' _ hbij htk (hfresh c' hcr)
    | some c0 =>
      have hres : oenv.existingResolves = true := by
        rcases hpath with hpath | hpath
        · rw [htk] at hpath
          cases hpath
        · exact hpath
      simpa [hres] using hbij
  · exact bijective_handle_channel_message_cleanup st c unf hbij
  · exact bijective_close_ticket st closing c cenv hbij
  · intro hnd
    exact ⟨keysNodup_handle_dm st u denv hnd,
      keysNodup_create_ticket_from_order st u serviceName oenv hnd,
      keysNodup_handle_channel_message_cleanup st c unf hnd,
      keysNodup_close_ticket st closing c cenv hnd⟩

/-- Witness for the amended C1 theorem at a concrete input: starting
from the empty (bijective) store, a DM from user 1 that creates channel
5 yields a bijective store again. -/
theorem ticket_store_bijection_amended_witness :
    Bijective (handle_dm ⟨[], [], []⟩ 1 ⟨ChanCheck.ok, some 5⟩) := by
  have hbij : Bijective (⟨[], [], []⟩ : TicketStore) := by
    intro u c
    simp [dictGet]
  exact (ticket_store_bijection_amended ⟨[], [], []⟩ 1 2 ⟨ChanCheck.ok, some 5⟩
    ⟨true, some 6⟩ ⟨UserFetch.found, true, true⟩ [] "svc" true hbij).1
    (by intro c' h; simp [dictGet]) (Or.inl (by simp [dictGet]))

/-- Claim C4, counterexample.  With user 1 already holding open ticket
channel 100, an order-based creation whose existing-channel fetch does
not resolve and whose channel creation yields channel 200 returns
channel 200 (no `ConflictError` exists anywhere in the code) and
overwrites `tickets[1]` from 100 to 200: the store silently overwrites
an existing open ticket for the same user. -/
theorem store_put_conflict_counterexample :
    (create_ticket_from_order exampleStoreOneTicket 1 "svc" ⟨false, some 200⟩).2 = some 200 ∧
    dictGet 1 (create_ticket_from_order exampleStoreOneTicket 1 "svc" ⟨false, some 200⟩).1.tickets
      = some 200 := by
  decide

/-- Claim C4 (amended).  Recording a new (user, channel) mapping is a
plain dictionary assignment with no conflict error: when the user
already has an entry, order-based creation with an unresolvable
existing channel succeeds and silently overwrites the user's mapping,
and DM-based creation reached through the generic `except Exception`
branch does the same. -/
theorem store_put_overwrites_amended (st : TicketStore) (u c0 c' : Nat)
    (serviceName : String) (oenv : OrderEnv) (denv : DmEnv)
    (h0 : dictGet u st.tickets = some c0)
    (hres : oenv.existingResolves = false)
    (hcr : oenv.createResult = some c') :
    (create_ticket_from_order st u serviceName oenv).2 = some c' ∧
    dictGet u (create_ticket_from_order st u serviceName oenv).1.tickets = some c' ∧
    (denv.chanCheck = ChanCheck.err → denv.createResult = some c' →
      dictGet u (handle_dm st u denv).tickets = some c') := by
  refine ⟨?_, ?_, ?_⟩
  · unfold create_ticket_from_order
    rw [h0]
    simp [hres, hcr]
  · unfold create_ticket_from_order
    rw [h0]
    simp [hres, hcr, dictGet_dictInsert_self]
  · intro hck hdc
    unfold handle_dm
    rw [h0]
    simp only [hck]
    unfold create_new_ticket
    rw [hdc]
    simp [dictGet_dictInsert_self]

/-- Witness for the amended C4 theorem at the concrete pre-state where
user 1 holds channel 100. -/
theorem store_put_overwrites_amended_witness :
    (create_ticket_from_order exampleStoreOneTicket 1 "svc" ⟨false, some 300⟩).2 = some 300 ∧
    dictGet 1 (create_ticket_from_order exampleStoreOneTicket 1 "svc" ⟨false, some 300⟩).1.tickets
      = some 300 ∧
    (ChanCheck.err = ChanCheck.err → (some 300 : Option Nat) = some 300 →
      dictGet 1 (handle_dm exampleStoreOneTicket 1 ⟨ChanCheck.err, some 300⟩).tickets
        = some 300) :=
  store_put_overwrites_amended exampleStoreOneTicket 1 100 300 "svc"
    ⟨false, some 300⟩ ⟨ChanCheck.err, some 300⟩ (by decide) rfl rfl

/-- Claim C2.  If the channel has a mapped user and transcript
generation fails, `close_ticket` leaves the store untouched, attempts
no channel deletion, and removes the channel from the closing-guard
set, so a subsequent close request on the same channel passes the guard
and reaches transcript generation again. -/
theorem close_aborts_on_transcript_failure (st : TicketStore) (closing : List Nat)
    (c u : Nat) (env : CloseEnv)
    (hg : c ∉ closing)
    (hcu : dictGet c st.channel_to_user = some u)
    (hf : env.userFetch ≠ UserFetch.raised)
    (ht : env.transcript = false) :
    (close_ticket st closing c env).store = st ∧
    CloseEvent.deleteAttempt ∉ (close_ticket st closing c env).events ∧
    c ∉ (close_ticket st closing c env).closing ∧
    (∀ env₂ : CloseEnv, env₂.userFetch ≠ UserFetch.raised →
      CloseEvent.transcriptAttempt ∈
        (close_ticket (close_ticket st closing c env).store
          (close_ticket st closing c env).closing c env₂).events) := by
  have hres : close_ticket st closing c env =
      ⟨st, setDiscard c (c :: closing),
        [CloseEvent.transcriptAttempt, CloseEvent.transcriptFailResp]⟩ := by
    unfold close_ticket
    rw [hcu]
    simp [hg, hf, ht]
  refine ⟨by rw [hres], by rw [hres]; simp, ?_, ?_⟩
  · rw [hres]
    exact not_mem_setDiscard_self c _
  · intro env₂ hf₂
    rw [hres]
    unfold close_ticket
    rw [hcu]
    simp only [not_mem_setDiscard_self c (c :: closing), if_neg, hf₂]
    by_cases ht₂ : env₂.transcript = false
    · simp [hf₂, ht₂, not_mem_setDiscard_self c (c :: closing)]
    · simp [hf₂, ht₂, not_mem_setDiscard_self c (c :: closing)]

/-- Witness for the C2 theorem: concrete store mapping channel 100 to
user 1, empty guard, failed transcript generation. -/
theorem close_aborts_on_transcript_failure_witness :
    (close_ticket exampleStoreOneTicket [] 100 ⟨UserFetch.found, false, true⟩).store
        = exampleStoreOneTicket ∧
    CloseEvent.deleteAttempt ∉
      (close_ticket exampleStoreOneTicket [] 100 ⟨UserFetch.found, false, true⟩).events ∧
    100 ∉ (close_ticket exampleStoreOneTicket [] 100 ⟨UserFetch.found, false, true⟩).closing ∧
    CloseEvent.transcriptAttempt ∈
      (close_ticket
        (close_ticket exampleStoreOneTicket [] 100 ⟨UserFetch.found, false, true⟩).store
        (close_ticket exampleStoreOneTicket [] 100 ⟨UserFetch.found, false, true⟩).closing
        100 ⟨UserFetch.found, true, true⟩).events := by
  have h := close_aborts_on_transcript_failure exampleStoreOneTicket [] 100 1
    ⟨UserFetch.found, false, true⟩ (by decide) (by decide) (by decide) rfl
  exact ⟨h.1, h.2.1, h.2.2.1, h.2.2.2 ⟨UserFetch.found, true, true⟩ (by decide)⟩

/-- Claim C5.  In a successful close (transcript generated), the three
store entries are removed and the snapshot saved strictly before the
channel-delete attempt, and regardless of whether the deletion
succeeds the final store no longer holds any of the three entries. -/
theorem close_removes_store_before_delete (st : TicketStore) (closing : List Nat)
    (c u : Nat) (env : CloseEnv)
    (hg : c ∉ closing)
    (hcu : dictGet c st.channel_to_user = some u)
    (hf : env.userFetch ≠ UserFetch.raised)
    (ht : env.transcript = true) :
    (∃ pre post, (close_ticket st closing c env).events
        = pre ++ CloseEvent.deleteAttempt :: post ∧
      CloseEvent.storeRemoved ∈ pre ∧ CloseEvent.snapshotSaved ∈ pre ∧
      CloseEvent.deleteAttempt ∉ pre) ∧
    dictGet u (close_ticket st closing c env).store.tickets = none ∧
    dictGet c (close_ticket st closing c env).store.channel_to_user = none ∧
    dictGet c (close_ticket st closing c env).store.channel_service = none := by
  have ht' : ¬ env.transcript = false := by
    rw [ht]
    decide
  have hres : close_ticket st closing c env =
      ⟨removeTicketEntries st u c, setDiscard c (c :: closing),
        [CloseEvent.transcriptAttempt, CloseEvent.storeRemoved,
          CloseEvent.snapshotSaved, CloseEvent.deleteAttempt] ++
        (if env.deleteOk then [] else [CloseEvent.deleteFailWarn]) ++
        [CloseEvent.successResp]⟩ := by
    unfold close_ticket
    rw [hcu]
    simp [hg, hf, ht']
  rw [hres]
  refine ⟨⟨[CloseEvent.transcriptAttempt, CloseEvent.storeRemoved, CloseEvent.snapshotSaved],
    (if env.deleteOk then [] else [CloseEvent.deleteFailWarn]) ++ [CloseEvent.successResp],
    by simp, by decide, by decide, by decide⟩, ?_, ?_, ?_⟩
  · simp [removeTicketEntries, dictGet_dictPop_self]
  · simp [removeTicketEntries, dictGet_dictPop_self]
  · simp [removeTicketEntries, dictGet_dictPop_self]

/-- Witness for the C5 theorem: concrete close on channel 100 for user
1 under a failed channel deletion. -/
theorem close_removes_store_before_delete_witness :
    (∃ pre post,
      (close_ticket exampleStoreOneTicket [] 100 ⟨UserFetch.found, true, false⟩).events
        = pre ++ CloseEvent.deleteAttempt :: post ∧
      CloseEvent.storeRemoved ∈ pre ∧ CloseEvent.snapshotSaved ∈ pre ∧
      CloseEvent.deleteAttempt ∉ pre) ∧
    dictGet 1 (close_ticket exampleStoreOneTicket [] 100
      ⟨UserFetch.found, true, false⟩).store.tickets = none ∧
    dictGet 100 (close_ticket exampleStoreOneTicket [] 100
      ⟨UserFetch.found, true, false⟩).store.channel_to_user = none ∧
    dictGet 100 (close_ticket exampleStoreOneTicket [] 100
      ⟨UserFetch.found, true, false⟩).store.channel_service = none :=
  close_removes_store_before_delete exampleStoreOneTicket [] 100 1
    ⟨UserFetch.found, true, false⟩ (by decide) (by decide) (by decide) rfl

/-- Claim C10.  An order-based ticket creation for a user who already
has an open ticket whose channel resolves returns that channel and
leaves the store (all three maps) unchanged; the channel-creation
outcome in the environment is irrelevant, so no new channel is
created. -/
theorem order_existing_ticket_reuse (st : TicketStore) (u c : Nat)
    (serviceName : String) (env : OrderEnv)
    (h0 : dictGet u st.tickets = some c)
    (hres : env.existingResolves = true) :
    create_ticket_from_order st u serviceName env = (st, some c) := by
  unfold create_ticket_from_order
  rw [h0]
  simp [hres]

/-- Witness for the C10 theorem: user 1 with existing resolvable
channel 100 gets channel 100 back and the store is untouched. -/
theorem order_existing_ticket_reuse_witness :
    create_ticket_from_order exampleStoreOneTicket 1 "svc" ⟨true, some 999⟩
      = (exampleStoreOneTicket, some 100) :=
  order_existing_ticket_reuse exampleStoreOneTicket 1 100 "svc"
    ⟨true, some 999⟩ (by decide) rfl

/-- Python `str(n)` for a non-negative integer, digit accumulator form. -/
def natToDecAux (n : Nat) (acc : List Char) : List Char :=
  if h : n < 10 then Char.ofNat (48 + n % 10) :: acc
  else natToDecAux (n / 10) (Char.ofNat (48 + n % 10) :: acc)
termination_by n
decreasing_by
  simp_wf
  omega

/-- Python `str(n)`: the decimal rendering of an id. -/
def natToDec (n : Nat) : String :=
  String.mk (natToDecAux n [])

/-- Python `int(s)` digit loop: accumulate decimal digits, failing on
any non-digit character (an `int()` failure raises and is caught by the
`load_tickets` exception handler). -/
def decToNatAux : List Char → Nat → Option Nat
  | [], acc => some acc
  | ch :: t, acc =>
    if 48 ≤ ch.toNat ∧ ch.toNat ≤ 57 then decToNatAux t (acc * 10 + (ch.toNat - 48))
    else none

/-- Python `int(s)` on a decimal string (empty input is also a failure). -/
def decToNat (s : String) : Option Nat :=
  match s.data with
  | [] => none
  | ch :: t => decToNatAux (ch :: t) 0

theorem natToDecAux_append (n : Nat) : ∀ acc : List Char,
    natToDecAux n acc = natToDecAux n [] ++ acc := by
  induction n using Nat.strong_induction_on with
  | _ n ih =>
    intro acc
    by_cases h : n < 10
    · conv_lhs => rw [natToDecAux]
      conv_rhs => rw [natToDecAux]
      simp [h]
    · have hd : n / 10 < n := by omega
      conv_lhs => rw [natToDecAux]
      conv_rhs => rw [natToDecAux]
      simp only [h, dite_false]
      rw [ih (n / 10) hd (Char.ofNat (48 + n % 10) :: acc),
        ih (n / 10) hd [Char.ofNat (48 + n % 10)]]
      simp

theorem natToDecAux_ne_nil (n : Nat) : ∀ acc : List Char, natToDecAux n acc ≠ [] := by
  induction n using Nat.strong_induction_on with
  | _ n ih =>
    intro acc
    by_cases h : n < 10
    · rw [natToDecAux]
      simp [h]
    · have hd : n / 10 < n := by omega
      rw [natToDecAux]
      simp only [h, dite_false]
      exact ih (n / 10) hd _

theorem char_digit_toNat (d : Nat) (hd : d < 10) :
    (Char.ofNat (48 + d)).toNat = 48 + d := by
  interval_cases d <;> decide

theorem decToNatAux_append (xs ys : List Char) : ∀ a : Nat,
    decToNatAux (xs ++ ys) a =
      match decToNatAux xs a with
      | none => none
      | some m => decToNatAux ys m := by
  induction xs with
  | nil => intro a; simp [decToNatAux]
  | cons ch t ih =>
    intro a
    by_cases h : 48 ≤ ch.toNat ∧ ch.toNat ≤ 57
    · simp [decToNatAux, h, ih]
    · simp [decToNatAux, h]

theorem decToNatAux_natToDecAux (n : Nat) : ∀ a : Nat,
    decToNatAux (natToDecAux n []) a
      = some (a * 10 ^ (natToDecAux n []).length + n) := by
  induction n using Nat.strong_induction_on with
  | _ n ih =>
    intro a
    by_cases h : n < 10
    · have hmod : n % 10 = n := Nat.mod_eq_of_lt h
      conv_lhs => rw [natToDecAux]
      conv_rhs => rw [natToDecAux]
      simp only [h, dite_true, hmod]
      have htn2 : (Char.ofNat (48 + n)).toNat = 48 + n := char_digit_toNat n h
      have hcond2 : 48 ≤ (Char.ofNat (48 + n)).toNat ∧
          (Char.ofNat (48 + n)).toNat ≤ 57 := by
        rw [htn2]
        omega
      simp only [decToNatAux, hcond2, if_true, htn2, List.length_cons,
        List.length_nil]
      have heq : a * 10 + (48 + n - 48) = a * 10 ^ (0 + 1) + n := by
        have h48 : 48 + n - 48 = n := by omega
        rw [h48]
        norm_num
      rw [heq]
      have hcond3 : 48 ≤ 48 + n ∧ 48 + n ≤ 57 := by omega
      rw [if_pos hcond3]
    · have hmodlt : n % 10 < 10 := Nat.mod_lt _ (by norm_num)
      have htn := char_digit_toNat (n % 10) hmodlt
      have hd : n / 10 < n := by omega
      have hsplit : natToDecAux n [] =
          natToDecAux (n / 10) [] ++ [Char.ofNat (48 + n % 10)] := by
        rw [natToDecAux]
        simp only [h, dite_false]
        exact natToDecAux_append (n / 10) _
      rw [hsplit, decToNatAux_append, ih (n / 10) hd a]
      simp only [decToNatAux]
      rw [htn]
      have hcond2 : 48 ≤ 48 + n % 10 ∧ 48 + n % 10 ≤ 57 := by omega
      rw [if_pos hcond2]
      simp only [List.length_append, List.length_cons, List.length_nil]
      have hdm : 10 * (n / 10) + n % 10 = n := Nat.div_add_mod n 10
      have hstep : (a * 10 ^ (natToDecAux (n / 10) []).length + n / 10) * 10
          + (48 + n % 10 - 48)
          = a * 10 ^ ((natToDecAux (n / 10) []).length + (0 + 1)) + n := by
        have h48 : 48 + n % 10 - 48 = n % 10 := by omega
        have hp : (10 : Nat) ^ ((natToDecAux (n / 10) []).length + (0 + 1))
            = 10 ^ (natToDecAux (n / 10) []).length * 10 := by
          rw [pow_add]
          norm_num
        rw [h48, hp]
        calc (a * 10 ^ (natToDecAux (n / 10) []).length + n / 10) * 10 + n % 10
            = a * (10 ^ (natToDecAux (n / 10) []).length * 10)
              + (10 * (n / 10) + n % 10) := by ring
          _ = a * (10 ^ (natToDecAux (n / 10) []).length * 10) + n := by rw [hdm]
      rw [hstep]

theorem decToNat_natToDec (n : Nat) : decToNat (natToDec n) = some n := by
  unfold decToNat natToDec
  cases hl : natToDecAux n [] with
  | nil => exact absurd hl (natToDecAux_ne_nil n [])
  | cons c t =>
    simp only [String.data]
    rw [← hl, decToNatAux_natToDecAux n 0]
    simp

/-- The on-disk snapshot written by `save_tickets`: three string-keyed
JSON maps, every id rendered as a decimal string. -/
structure Snapshot where
  tickets : List (String × String)
  channel_to_user : List (String × String)
  channel_service : List (String × String)
deriving DecidableEq

/-- `Support.save_tickets`: serialize all ids of the three maps as
decimal strings (service labels stay strings). -/
def save_tickets (st : TicketStore) : Snapshot :=
  { tickets := st.tickets.map (fun p => (natToDec p.1, natToDec p.2))
    channel_to_user := st.channel_to_user.map (fun p => (natToDec p.1, natToDec p.2))
    channel_service := st.channel_service.map (fun p => (natToDec p.1, p.2)) }

/-- The `int(k), int(v)` comprehension of `load_tickets` over an
id-to-id map; `none` when any conversion raises. -/
def parseNatPairs : List (String × String) → Option (List (Nat × Nat))
  | [] => some []
  | p :: t =>
    match decToNat p.1, decToNat p.2, parseNatPairs t with
    | some k, some v, some r => some ((k, v) :: r)
    | _, _, _ => none

/-- The `int(k), v` comprehension of `load_tickets` over the
channel-to-service map; `none` when any key conversion raises. -/
def parseNatKeyed : List (String × String) → Option (List (Nat × String))
  | [] => some []
  | p :: t =>
    match decToNat p.1, parseNatKeyed t with
    | some k, some r => some ((k, p.2) :: r)
    | _, _ => none

/-- `Support.load_tickets`: convert the string keys and values of the
snapshot back to ids; any conversion failure raises and the exception
handler resets all three maps to empty. -/
def load_tickets (sn : Snapshot) : TicketStore :=
  match parseNatPairs sn.tickets, parseNatPairs sn.channel_to_user,
      parseNatKeyed sn.channel_service with
  | some a, some b, some c => ⟨a, b, c⟩
  | _, _, _ => ⟨[], [], []⟩

theorem parseNatPairs_map_natToDec (l : List (Nat × Nat)) :
    parseNatPairs (l.map (fun p => (natToDec p.1, natToDec p.2))) = some l := by
  induction l with
  | nil => simp [parseNatPairs]
  | cons p t ih =>
    simp [parseNatPairs, decToNat_natToDec, ih]

theorem parseNatKeyed_map_natToDec (l : List (Nat × String)) :
    parseNatKeyed (l.map (fun p => (natToDec p.1, p.2))) = some l := by
  induction l with
  | nil => simp [parseNatKeyed]
  | cons p t ih =>
    simp [parseNatKeyed, decToNat_natToDec, ih]

/-- Claim C7.  Saving the snapshot (all ids rendered as decimal
strings across the three maps) and loading it back reproduces exactly
the same store, hence the same set of (userId, channelId, serviceLabel)
triples: nothing is lost and nothing is added. -/
theorem snapshot_save_load_roundtrip (st : TicketStore) :
    load_tickets (save_tickets st) = st := by
  unfold load_tickets save_tickets
  simp only [parseNatPairs_map_natToDec, parseNatKeyed_map_natToDec]

/-- `TICKET_PREFIX` of `support.py`. -/
def ticketNameBase : String := "support"

/-- `SHORT_ID_LENGTH` of `support.py`. -/
def shortIdLen : Nat := 6

/-- `string.ascii_lowercase + string.digits`: the alphabet sampled by
`generate_short_id`. -/
def shortIdAlphabet : List Char :=
  "abcdefghijklmnopqrstuvwxyz0123456789".toList

/-- `Support.generate_short_id`: `SHORT_ID_LENGTH` independent
`secrets.choice` picks from the alphabet; the randomness source is
modelled by the pick function. -/
def generate_short_id (pick : Nat → Fin shortIdAlphabet.length) : String :=
  String.mk ((List.range shortIdLen).map (fun i => shortIdAlphabet.get (pick i)))

/-- The `user.name.lower().replace(' ', '-')[:20]` sanitization of
`create_ticket_channel`. -/
def sanitizeUsername (name : String) : String :=
  String.mk ((name.toLower.replace " " "-").toList.take 20)

/-- The f-string `f"{TICKET_PREFIX}-{username_clean}-{short_id}"`. -/
def ticketChannelName (username : String)
    (pick : Nat → Fin shortIdAlphabet.length) : String :=
  ticketNameBase ++ "-" ++ sanitizeUsername username ++ "-" ++ generate_short_id pick

/-- Environment for `create_ticket_channel`: the manage-channels
permission check, category resolution, and the platform accepting the
channel-create call. -/
structure ChannelCreateEnv where
  hasManageChannels : Bool
  categoryOk : Bool
  createOk : Bool
deriving DecidableEq

/-- `Support.create_ticket_channel` reduced to its naming behaviour:
`none` on the permission, category, and creation failure paths,
otherwise the created channel carries the computed name. -/
def create_ticket_channel (username : String)
    (pick : Nat → Fin shortIdAlphabet.length) (env : ChannelCreateEnv) :
    Option String :=
  if env.hasManageChannels = false then none
  else if env.categoryOk = false then none
  else if env.createOk then some (ticketChannelName username pick) else none

/-- Claim C9.  Every channel provisioned by `create_ticket_channel` is
named `support-{sanitizedUsername}-{suffix}` where the sanitized
username (lowercased, spaces replaced) is at most 20 characters and
the suffix is exactly 6 characters drawn from the 36-character
lowercase-plus-digits alphabet. -/
theorem ticket_channel_naming (username : String)
    (pick : Nat → Fin shortIdAlphabet.length) (env : ChannelCreateEnv)
    (nm : String) (h : create_ticket_channel username pick env = some nm) :
    nm = ticketNameBase ++ "-" ++ sanitizeUsername username ++ "-"
        ++ generate_short_id pick ∧
    (sanitizeUsername username).length ≤ 20 ∧
    (generate_short_id pick).length = 6 ∧
    shortIdAlphabet.length = 36 ∧
    ∀ ch ∈ (generate_short_id pick).data, ch ∈ shortIdAlphabet := by
  refine ⟨?_, ?_, ?_, by decide, ?_⟩
  · unfold create_ticket_channel at h
    split_ifs at h
    cases h
    rfl
  · simp only [sanitizeUsername]
    have : (String.mk ((username.toLower.replace " " "-").toList.take 20)).length
        = ((username.toLower.replace " " "-").toList.take 20).length := rfl
    rw [this, List.length_take]
    exact min_le_left _ _
  · simp only [generate_short_id]
    have : (String.mk ((List.range shortIdLen).map
        (fun i => shortIdAlphabet.get (pick i)))).length
        = ((List.range shortIdLen).map (fun i => shortIdAlphabet.get (pick i))).length := rfl
    rw [this, List.length_map, List.length_range]
    rfl
  · intro ch hch
    have hch' : ch ∈ (List.range shortIdLen).map
        (fun i => shortIdAlphabet.get (pick i)) := hch
    rcases List.mem_map.mp hch' with ⟨i, _, hi⟩
    rw [← hi]
    exact List.get_mem shortIdAlphabet (pick i).1 (pick i).2

/-- Deterministic pick function for the C9 witness. -/
def pickZero : Nat → Fin shortIdAlphabet.length :=
  fun _ => ⟨0, by decide⟩

/-- Witness for the C9 theorem at a concrete username, environment,
and randomness source. -/
theorem ticket_channel_naming_witness :
    ticketChannelName "Bob Smith" pickZero
      = ticketNameBase ++ "-" ++ sanitizeUsername "Bob Smith" ++ "-"
        ++ generate_short_id pickZero ∧
    (sanitizeUsername "Bob Smith").length ≤ 20 ∧
    (generate_short_id pickZero).length = 6 ∧
    shortIdAlphabet.length = 36 ∧
    Char.ofNat 97 ∈ shortIdAlphabet := by
  have h := ticket_channel_naming "Bob Smith" pickZero ⟨true, true, true⟩
    (ticketChannelName "Bob Smith" pickZero) rfl
  exact ⟨h.1, h.2.1, h.2.2.1, h.2.2.2.1, h.2.2.2.2 (Char.ofNat 97) (by decide)⟩

/-- A guild role as consulted by the permission logic: id and name. -/
structure Role where
  id : Nat
  name : String
deriving DecidableEq

/-- A permission-overwrite target: a role object or a member (the
service account `guild.me` is a member). -/
inductive PermTarget
  | role (r : Role)
  | member (uid : Nat)
deriving DecidableEq

/-- The flags of `discord.PermissionOverwrite` set by
`create_ticket_channel`; `none` leaves a flag unset. -/
structure PermissionOverwrite where
  view_channel : Option Bool := none
  send_messages : Option Bool := none
  read_message_history : Option Bool := none
  manage_messages : Option Bool := none
deriving DecidableEq

/-- The guild data consulted when computing ticket-channel overwrites. -/
structure GuildRoles where
  defaultRole : Role
  meId : Nat
  roles : List Role
deriving DecidableEq

/-- `SUPPORT_STAFF_ROLE_ID` of `support.py`. -/
def supportStaffRoleId : Nat := 1454227177615655034

/-- Python substring containment `needle in hay` over characters. -/
def strHasSub (needle : List Char) : List Char → Bool
  | [] => needle.isEmpty
  | c :: t => needle.isPrefixOf (c :: t) || strHasSub needle t

/-- Python `str.lower()` on one character, for the ASCII range role
names use. -/
def charLower (c : Char) : Char :=
  if 65 ≤ c.toNat ∧ c.toNat ≤ 90 then Char.ofNat (c.toNat + 32) else c

/-- Python `str.lower()` over the characters of a name. -/
def lowerChars (l : List Char) : List Char :=
  l.map charLower

/-- The keyword test of `get_staff_roles`:
`any(keyword in role.name.lower() for keyword in
['admin', 'staff', 'mod', 'moderator'])`. -/
def staffNameMatch (name : String) : Bool :=
  ["admin", "staff", "mod", "moderator"].any
    (fun kw => strHasSub kw.toList (lowerChars name.toList))

/-- `Support.get_staff_roles`: the guild roles whose lowercased name
contains a staff keyword (no config-based role id is consulted). -/
def get_staff_roles (roles : List Role) : List Role :=
  roles.filter (fun r => staffNameMatch r.name)

/-- The `view_channel=False` overwrite given to the default role. -/
def denyView : PermissionOverwrite :=
  { view_channel := some false }

/-- The overwrite given to `guild.me`. -/
def botPerm : PermissionOverwrite :=
  { view_channel := some true, send_messages := some true,
    read_message_history := some true, manage_messages := some true }

/-- The overwrite given to each staff role. -/
def staffPerm : PermissionOverwrite :=
  { view_channel := some true, send_messages := some true,
    read_message_history := some true }

/-- The overwrites dict built by `create_ticket_channel(guild, user)`:
deny the default role, grant `guild.me`, then grant each role returned
by `get_staff_roles`.  No entry is ever added for the requesting user,
and `SUPPORT_STAFF_ROLE_ID` is not consulted here. -/
def ticket_overwrites (g : GuildRoles) : List (PermTarget × PermissionOverwrite) :=
  (get_staff_roles g.roles).foldl
    (fun acc r => dictInsert (PermTarget.role r) staffPerm acc)
    [(PermTarget.role g.defaultRole, denyView), (PermTarget.member g.meId, botPerm)]

theorem dictGet_member_foldl_roles (l : List Role) (uid : Nat) :
    ∀ acc : List (PermTarget × PermissionOverwrite),
    dictGet (PermTarget.member uid)
        (l.foldl (fun acc r => dictInsert (PermTarget.role r) staffPerm acc) acc)
      = dictGet (PermTarget.member uid) acc := by
  induction l with
  | nil => intro acc; rfl
  | cons r t ih =>
    intro acc
    rw [List.foldl_cons, ih]
    exact dictGet_dictInsert_ne _ _ (by simp)

theorem dictGet_role_foldl_roles (l : List Role) (k : Role) :
    ∀ acc : List (PermTarget × PermissionOverwrite),
    dictGet (PermTarget.role k)
        (l.foldl (fun acc r => dictInsert (PermTarget.role r) staffPerm acc) acc)
      = if k ∈ l then some staffPerm else dictGet (PermTarget.role k) acc := by
  induction l with
  | nil => intro acc; simp
  | cons r t ih =>
    intro acc
    rw [List.foldl_cons, ih]
    by_cases hk : k ∈ t
    · simp [hk]
    · simp only [hk, if_false]
      by_cases hkr : k = r
      · subst hkr
        simp [dictGet_dictInsert_self]
      · rw [dictGet_dictInsert_ne _ _ (by simp [hkr])]
        simp [hkr, hk]

/-- Concrete guild for the C6 counterexample: the configured staff
role id belongs to a role named Closers, which matches no staff
keyword. -/
def exampleGuildClosers : GuildRoles :=
  { defaultRole := ⟨1, "@everyone"⟩
    meId := 2
    roles := [⟨1, "@everyone"⟩, ⟨supportStaffRoleId, "Closers"⟩] }

/-- Claim C6, counterexample.  In a guild whose configured staff role
(id `SUPPORT_STAFF_ROLE_ID`) is named Closers, the overwrite set built
by `create_ticket_channel` contains no entry for any member other than
the service account (in particular none for the ticket-owning user,
id 42) and no entry for the configured staff role: the claimed grants
to the owning user and to the explicitly configured staff role id do
not exist. -/
theorem channel_permission_grants_counterexample :
    dictGet (PermTarget.member 42) (ticket_overwrites exampleGuildClosers) = none ∧
    dictGet (PermTarget.role ⟨supportStaffRoleId, "Closers"⟩)
      (ticket_overwrites exampleGuildClosers) = none := by
  decide

/-- Claim C6 (amended).  The overwrite set denies `view_channel` to the
default role (provided its name matches no staff keyword, as the name
`@everyone` does not), grants the service account full access, grants
view/send/history to exactly the guild roles whose lowercased name
contains one of `admin`, `staff`, `mod`, `moderator`, and contains no
entry for any other member or role: the ticket-owning user receives no
grant and the configured staff role id is not consulted. -/
theorem channel_permission_set_amended (g : GuildRoles)
    (hdef : staffNameMatch g.defaultRole.name = false) :
    dictGet (PermTarget.role g.defaultRole) (ticket_overwrites g) = some denyView ∧
    dictGet (PermTarget.member g.meId) (ticket_overwrites g) = some botPerm ∧
    (∀ r ∈ g.roles, staffNameMatch r.name = true →
      dictGet (PermTarget.role r) (ticket_overwrites g) = some staffPerm) ∧
    (∀ uid : Nat, uid ≠ g.meId →
      dictGet (PermTarget.member uid) (ticket_overwrites g) = none) ∧
    (∀ r : Role, staffNameMatch r.name = false → r ≠ g.defaultRole →
      dictGet (PermTarget.role r) (ticket_overwrites g) = none) := by
  refine ⟨?_, ?_, ?_, ?_, ?_⟩
  · unfold ticket_overwrites
    rw [dictGet_role_foldl_roles]
    have hnot : g.defaultRole ∉ get_staff_roles g.roles := by
      intro hmem
      rcases List.mem_filter.mp hmem with ⟨_, hp⟩
      rw [hdef] at hp
      cases hp
    rw [if_neg hnot]
    simp [dictGet]
  · unfold ticket_overwrites
    rw [dictGet_member_foldl_roles]
    simp [dictGet]
  · intro r hr hmatch
    unfold ticket_overwrites
    rw [dictGet_role_foldl_roles]
    have hmem : r ∈ get_staff_roles g.roles := List.mem_filter.mpr ⟨hr, hmatch⟩
    rw [if_pos hmem]
  · intro uid huid
    unfold ticket_overwrites
    rw [dictGet_member_foldl_roles]
    simp [dictGet, huid, Ne.symm huid]
  · intro r hmatch hne
    unfold ticket_overwrites
    rw [dictGet_role_foldl_roles]
    have hnot : r ∉ get_staff_roles g.roles := by
      intro hmem
      rcases List.mem_filter.mp hmem with ⟨_, hp⟩
      rw [hmatch] at hp
      cases hp
    rw [if_neg hnot]
    have hne' : PermTarget.role g.defaultRole ≠ PermTarget.role r := by
      simp [Ne.symm hne]
    simp [dictGet, hne']

/-- Concrete guild for the C6 witness: a matching role named
Moderators and a non-matching role named Racers. -/
def exampleGuildMods : GuildRoles :=
  { defaultRole := ⟨1, "@everyone"⟩
    meId := 2
    roles := [⟨1, "@everyone"⟩, ⟨5, "Moderators"⟩, ⟨7, "Racers"⟩] }

/-- Witness for the amended C6 theorem on a concrete guild. -/
theorem channel_permission_set_amended_witness :
    dictGet (PermTarget.role (⟨1, "@everyone"⟩ : Role))
      (ticket_overwrites exampleGuildMods) = some denyView ∧
    dictGet (PermTarget.member 2) (ticket_overwrites exampleGuildMods) = some botPerm ∧
    dictGet (PermTarget.role (⟨5, "Moderators"⟩ : Role))
      (ticket_overwrites exampleGuildMods) = some staffPerm ∧
    dictGet (PermTarget.member 42) (ticket_overwrites exampleGuildMods) = none ∧
    dictGet (PermTarget.role (⟨7, "Racers"⟩ : Role))
      (ticket_overwrites exampleGuildMods) = none := by
  have h := channel_permission_set_amended exampleGuildMods (by decide)
  exact ⟨h.1, h.2.1,
    h.2.2.1 ⟨5, "Moderators"⟩ (by decide) (by decide),
    h.2.2.2.1 42 (by decide),
    h.2.2.2.2 ⟨7, "Racers"⟩ (by decide) (by decide)⟩

/-- Environment for one guided order intake
(`OrderSelect.handle_selection`): the order-channel creation outcome
and the two prompt replies, `none` meaning the 300-second
`wait_for_response` window elapsed without a reply. -/
structure IntakeEnv where
  createResult : Option Nat
  robloxReply : Option String
  locationReply : Option String
deriving DecidableEq

/-- Observable milestones of one guided order intake, in program
order. -/
inductive IntakeEvent
  | alreadyOpenResp
  | createFailResp
  | channelCreated (c : Nat)
  | promptSent
  | timedOutNotice
  | summaryPosted
  | ackResp
deriving DecidableEq

/-- `OrderSelect.ask_for_details`: prompt for the Roblox username and
the location with a 300-second wait each; on either timeout post a
Timed Out notice and drop the user's active-order entry; on success
post the summary and drop the entry. -/
def ask_for_details (active : List (Nat × Nat)) (u : Nat) (env : IntakeEnv) :
    List (Nat × Nat) × List IntakeEvent :=
  match env.robloxReply with
  | none => (dictPop u active, [IntakeEvent.promptSent, IntakeEvent.timedOutNotice])
  | some _ =>
    match env.locationReply with
    | none => (dictPop u active, [IntakeEvent.promptSent, IntakeEvent.timedOutNotice])
    | some _ => (dictPop u active, [IntakeEvent.promptSent, IntakeEvent.summaryPosted])

/-- `OrderSelect.handle_selection`: reject a duplicate active order,
otherwise create the order channel first, track it in `active_orders`,
then run the guided intake, then acknowledge the interaction. -/
def handle_selection (active : List (Nat × Nat)) (u : Nat) (env : IntakeEnv) :
    List (Nat × Nat) × List IntakeEvent :=
  match dictGet u active with
  | some _ => (active, [IntakeEvent.alreadyOpenResp])
  | none =>
    match env.createResult with
    | none => (active, [IntakeEvent.createFailResp])
    | some c =>
      let stepped := ask_for_details (dictInsert u c active) u env
      (stepped.1, IntakeEvent.channelCreated c :: stepped.2 ++ [IntakeEvent.ackResp])

/-- Claim C8, counterexample.  A fresh intake by user 7 whose channel
creation succeeds (channel 500) and whose Location prompt times out
still records the creation of channel 500 alongside the timeout
notice, and the channel is never deleted: a timed-out intake does
leave a created channel behind, contradicting that no channel is
created. -/
theorem intake_timeout_counterexample :
    (handle_selection [] 7 ⟨some 500, some "rbx", none⟩).2
      = [IntakeEvent.channelCreated 500, IntakeEvent.promptSent,
        IntakeEvent.timedOutNotice, IntakeEvent.ackResp] ∧
    IntakeEvent.channelCreated 500 ∈ (handle_selection [] 7 ⟨some 500, some "rbx", none⟩).2 ∧
    IntakeEvent.timedOutNotice ∈ (handle_selection [] 7 ⟨some 500, some "rbx", none⟩).2 := by
  decide

/-- Claim C8 (amended).  When a prompt of the guided intake receives no
reply within the wait window, the intake aborts with a user-visible
Timed Out notice and the user's active-order entry is removed (no
partial order tracking remains), but the order channel — created
before the prompts — is not deleted and remains recorded as created. -/
theorem intake_timeout_aborts_amended (active : List (Nat × Nat)) (u c : Nat)
    (env : IntakeEnv)
    (hfree : dictGet u active = none)
    (hcr : env.createResult = some c)
    (htimeout : env.robloxReply = none ∨ env.locationReply = none) :
    IntakeEvent.timedOutNotice ∈ (handle_selection active u env).2 ∧
    IntakeEvent.summaryPosted ∉ (handle_selection active u env).2 ∧
    dictGet u (handle_selection active u env).1 = none ∧
    IntakeEvent.channelCreated c ∈ (handle_selection active u env).2 := by
  have hres : handle_selection active u env
      = ((ask_for_details (dictInsert u c active) u env).1,
        IntakeEvent.channelCreated c ::
          (ask_for_details (dictInsert u c active) u env).2 ++ [IntakeEvent.ackResp]) := by
    unfold handle_selection
    rw [hfree, hcr]
  have hdetails : ask_for_details (dictInsert u c active) u env
      = (dictPop u (dictInsert u c active),
        [IntakeEvent.promptSent, IntakeEvent.timedOutNotice]) := by
    unfold ask_for_details
    rcases htimeout with ht | ht
    · rw [ht]
    · cases hr : env.robloxReply with
      | none => rfl
      | some s => rw [ht]
  rw [hres, hdetails]
  refine ⟨by simp, by simp, ?_, by simp⟩
  simp [dictGet_dictPop_self]

/-- Witness for the amended C8 theorem: user 7, successful creation of
channel 500, Location prompt timing out. -/
theorem intake_timeout_aborts_amended_witness :
    IntakeEvent.timedOutNotice ∈ (handle_selection [] 7 ⟨some 500, some "rbx", none⟩).2 ∧
    IntakeEvent.summaryPosted ∉ (handle_selection [] 7 ⟨some 500, some "rbx", none⟩).2 ∧
    dictGet 7 (handle_selection [] 7 ⟨some 500, some "rbx", none⟩).1 = none ∧
    IntakeEvent.channelCreated 500 ∈ (handle_selection [] 7 ⟨some 500, some "rbx", none⟩).2 :=
  intake_timeout_aborts_amended [] 7 500 ⟨some 500, some "rbx", none⟩
    rfl rfl (Or.inr rfl)

/-- Terminal user-visible reply of one `close_ticket` task. -/
inductive CloseResp
  | alreadyClosing
  | notTicket
  | transcriptFail
  | closed
deriving DecidableEq

/-- Task-local state of one in-flight `close_ticket` call in the
interleaving model.  The program counter marks the suspension points
(awaits) of the coroutine; the entry segment (pc 0) performs the guard
membership test, the guard insert, and the `channel_to_user` lookup
with no await in between, exactly as in the source, so it is one
atomic step.  pc 1: rejected by the guard, delivering the reply; pc 2:
invalid ticket, delivering the reply and releasing; pc 3: resumed from
`fetch_user`; pc 4: resumed from transcript generation; pc 5:
transcript failed, delivering the reply and releasing; pc 6: resumed
from the best-effort notifications, removing the store entries and
starting the delete; pc 7: resumed from the delete attempt; pc 8:
delivering the success reply and releasing through `finally`. -/
structure CTask where
  pc : Nat
  uid : Option Nat
  transcriptAttempted : Bool
  deleteAttempted : Bool
  response : Option CloseResp
  done : Bool
deriving DecidableEq

/-- A close task that has not yet run its entry segment. -/
def CTask.fresh : CTask :=
  ⟨0, none, false, false, none, false⟩

/-- One atomic segment of `close_ticket` for channel `c`, between two
suspension points; mirrors the source control flow of
`Support.close_ticket`. -/
def taskStep (c : Nat) (env : CloseEnv) (store : TicketStore) (guard : List Nat)
    (t : CTask) : TicketStore × List Nat × CTask :=
  if t.done = true then (store, guard, t)
  else if t.pc = 0 then
    (if c ∈ guard then (store, guard, { t with pc := 1 })
     else
       match dictGet c store.channel_to_user with
       | none => (store, c :: guard, { t with pc := 2 })
       | some uid => (store, c :: guard, { t with pc := 3, uid := some uid }))
  else if t.pc = 1 then
    (store, guard, { t with done := true, response := some CloseResp.alreadyClosing })
  else if t.pc = 2 then
    (store, setDiscard c guard, { t with done := true, response := some CloseResp.notTicket })
  else if t.pc = 3 then
    (if env.userFetch = UserFetch.raised then
       (store, setDiscard c guard, { t with done := true })
     else (store, guard, { t with pc := 4, transcriptAttempted := true }))
  else if t.pc = 4 then
    (if env.transcript then (store, guard, { t with pc := 6 })
     else (store, guard, { t with pc := 5 }))
  else if t.pc = 5 then
    (store, setDiscard c guard, { t with done := true, response := some CloseResp.transcriptFail })
  else if t.pc = 6 then
    (removeTicketEntries store (t.uid.getD 0) c, guard,
      { t with pc := 7, deleteAttempted := true })
  else if t.pc = 7 then
    (store, guard, { t with pc := 8 })
  else
    (store, setDiscard c guard, { t with done := true, response := some CloseResp.closed })

/-- The whole system: shared store, shared closing-guard set, and two
interleaving close tasks aimed at the same channel. -/
structure CSys where
  store : TicketStore
  guard : List Nat
  t0 : CTask
  t1 : CTask
deriving DecidableEq

/-- Run one atomic segment of the task selected by the scheduler. -/
def sysStep (c : Nat) (e0 e1 : CloseEnv) (s : CSys) (who : Bool) : CSys :=
  if who then
    ⟨(taskStep c e1 s.store s.guard s.t1).1,
      (taskStep c e1 s.store s.guard s.t1).2.1, s.t0,
      (taskStep c e1 s.store s.guard s.t1).2.2⟩
  else
    ⟨(taskStep c e0 s.store s.guard s.t0).1,
      (taskStep c e0 s.store s.guard s.t0).2.1,
      (taskStep c e0 s.store s.guard s.t0).2.2, s.t1⟩

/-- Run a whole interleaving: the scheduler word says which task runs
each atomic segment. -/
def runClose (c : Nat) (e0 e1 : CloseEnv) (s : CSys) (sched : List Bool) : CSys :=
  sched.foldl (sysStep c e0 e1) s

/-- Initial system: both close requests pending on channel `c`. -/
def initCloseSys (st : TicketStore) (g0 : List Nat) : CSys :=
  ⟨st, g0, CTask.fresh, CTask.fresh⟩

/-- The task holds the closing guard: it passed the check-and-insert
and has not yet released through an exit path. -/
def CTask.activeClose (t : CTask) : Prop :=
  t.done = false ∧ 2 ≤ t.pc

/-- Local sanity of one task state. -/
def taskOk (t : CTask) : Prop :=
  (t.transcriptAttempted = true → 4 ≤ t.pc) ∧
  (t.deleteAttempted = true → 7 ≤ t.pc) ∧
  (t.pc = 0 → t.done = false ∧ t.response = none) ∧
  (t.pc = 1 → t.done = true → t.response = some CloseResp.alreadyClosing)

/-- System invariant: both tasks are sane, the guard holds `c` exactly
when some task is inside the guarded region, and at most one task is
inside the guarded region at a time (mutual exclusion). -/
def sysInv (c : Nat) (s : CSys) : Prop :=
  taskOk s.t0 ∧ taskOk s.t1 ∧
  (c ∈ s.guard ↔ (s.t0.activeClose ∨ s.t1.activeClose)) ∧
  ¬ (s.t0.activeClose ∧ s.t1.activeClose)


theorem stay_step_ok (c : Nat) (guard : List Nat) (o : CTask) (t' : CTask)
    (hdf : t'.done = false) (hpc : 2 ≤ t'.pc)
    (htr : t'.transcriptAttempted = true → 4 ≤ t'.pc)
    (hdl : t'.deleteAttempted = true → 7 ≤ t'.pc)
    (hg : c ∈ guard) (hnoact : ¬ o.activeClose) :
    taskOk t' ∧ (c ∈ guard ↔ (t'.activeClose ∨ o.activeClose)) ∧
      ¬ (t'.activeClose ∧ o.activeClose) := by
  have hact : t'.activeClose := ⟨hdf, hpc⟩
  refine ⟨⟨htr, hdl, ?_, ?_⟩, ?_, ?_⟩
  · intro hp
    exact absurd hp (by omega)
  · intro hp
    exact absurd hp (by omega)
  · exact ⟨fun _ => Or.inl hact, fun _ => hg⟩
  · intro h
    exact hnoact h.2

theorem exit_step_ok (c : Nat) (guard : List Nat) (o : CTask) (t' : CTask)
    (hdone : t'.done = true) (h0 : ¬ t'.pc = 0)
    (h1resp : t'.pc = 1 → t'.response = some CloseResp.alreadyClosing)
    (htr : t'.transcriptAttempted = true → 4 ≤ t'.pc)
    (hdl : t'.deleteAttempted = true → 7 ≤ t'.pc)
    (hnoact : ¬ o.activeClose) :
    taskOk t' ∧ (c ∈ setDiscard c guard ↔ (t'.activeClose ∨ o.activeClose)) ∧
      ¬ (t'.activeClose ∧ o.activeClose) := by
  have hnact : ¬ t'.activeClose := by
    intro ha
    have hx := ha.1
    rw [hdone] at hx
    cases hx
  refine ⟨⟨htr, hdl, fun hp => absurd hp h0, fun hp _ => h1resp hp⟩, ?_, ?_⟩
  · constructor
    · intro hin
      exact absurd hin (not_mem_setDiscard_self c guard)
    · intro h
      rcases h with ha | ha
      · exact absurd ha hnact
      · exact absurd ha hnoact
  · intro h
    exact hnact h.1

theorem still_inactive_step_ok (c : Nat) (guard : List Nat) (o : CTask) (t' : CTask)
    (hok : taskOk t') (hnact : ¬ t'.activeClose)
    (hiff' : c ∈ guard ↔ o.activeClose) :
    taskOk t' ∧ (c ∈ guard ↔ (t'.activeClose ∨ o.activeClose)) ∧
      ¬ (t'.activeClose ∧ o.activeClose) := by
  refine ⟨hok, ?_, fun h => hnact h.1⟩
  constructor
  · intro hin
    exact Or.inr (hiff'.mp hin)
  · intro h
    rcases h with ha | ha
    · exact absurd ha hnact
    · exact hiff'.mpr ha

theorem taskStep_preserves (c : Nat) (env : CloseEnv) (store : TicketStore)
    (guard : List Nat) (t o : CTask)
    (ht : taskOk t) (_ho : taskOk o)
    (hiff : c ∈ guard ↔ (t.activeClose ∨ o.activeClose))
    (hmux : ¬ (t.activeClose ∧ o.activeClose)) :
    taskOk (taskStep c env store guard t).2.2 ∧
    (c ∈ (taskStep c env store guard t).2.1 ↔
      ((taskStep c env store guard t).2.2.activeClose ∨ o.activeClose)) ∧
    ¬ ((taskStep c env store guard t).2.2.activeClose ∧ o.activeClose) := by
  obtain ⟨ht1, ht2, ht3, ht4⟩ := ht
  by_cases hd : t.done = true
  · have hstep : taskStep c env store guard t = (store, guard, t) := by
      simp [taskStep, hd]
    rw [hstep]
    exact ⟨⟨ht1, ht2, ht3, ht4⟩, hiff, hmux⟩
  · have hdf : t.done = false := by
      cases hval : t.done
      · rfl
      · exact absurd hval hd
    by_cases h0 : t.pc = 0
    · have hft : t.transcriptAttempted = false := by
        cases hval : t.transcriptAttempted
        · rfl
        · have := ht1 hval
          omega
      have hfd : t.deleteAttempted = false := by
        cases hval : t.deleteAttempted
        · rfl
        · have := ht2 hval
          omega
      have hnact : ¬ t.activeClose := by
        intro ha
        have := ha.2
        omega
      by_cases hmem : c ∈ guard
      · have hoact : o.activeClose := by
          rcases hiff.mp hmem with ha | ha
          · exact absurd ha hnact
          · exact ha
        have hstep : taskStep c env store guard t = (store, guard, { t with pc := 1 }) := by
          simp [taskStep, hdf, h0, hmem]
        rw [hstep]
        exact still_inactive_step_ok c guard o { t with pc := 1 }
          ⟨(fun hf => by
              have hf' : t.transcriptAttempted = true := hf
              rw [hft] at hf'
              cases hf'),
            (fun hf => by
              have hf' : t.deleteAttempted = true := hf
              rw [hfd] at hf'
              cases hf'),
            (fun hp => by
              have hp' : (1 : Nat) = 0 := hp
              cases hp'),
            (fun _ hdone => by
              have hdone' : t.done = true := hdone
              exact absurd hdone' hd)⟩
          (fun ha => by
            have hx : (2 : Nat) ≤ 1 := ha.2
            omega)
          ⟨fun _ => hoact, fun _ => hmem⟩
      · have hnoact : ¬ o.activeClose := by
          intro ha
          exact hmem (hiff.mpr (Or.inr ha))
        cases hlu : dictGet c store.channel_to_user with
        | none =>
          have hstep : taskStep c env store guard t
              = (store, c :: guard, { t with pc := 2 }) := by
            simp [taskStep, hdf, h0, hmem, hlu]
          rw [hstep]
          exact stay_step_ok c (c :: guard) o { t with pc := 2 } hdf
            (by show (2 : Nat) ≤ 2; norm_num)
            (fun hf => by
              have hf' : t.transcriptAttempted = true := hf
              rw [hft] at hf'
              cases hf')
            (fun hf => by
              have hf' : t.deleteAttempted = true := hf
              rw [hfd] at hf'
              cases hf')
            (List.mem_cons_self c guard) hnoact
        | some uid =>
          have hstep : taskStep c env store guard t
              = (store, c :: guard, { t with pc := 3, uid := some uid }) := by
            simp [taskStep, hdf, h0, hmem, hlu]
          rw [hstep]
          exact stay_step_ok c (c :: guard) o { t with pc := 3, uid := some uid } hdf
            (by show (2 : Nat) ≤ 3; norm_num)
            (fun hf => by
              have hf' : t.transcriptAttempted = true := hf
              rw [hft] at hf'
              cases hf')
            (fun hf => by
              have hf' : t.deleteAttempted = true := hf
              rw [hfd] at hf'
              cases hf')
            (List.mem_cons_self c guard) hnoact
    · by_cases h1 : t.pc = 1
      · have hft : t.transcriptAttempted = false := by
          cases hval : t.transcriptAttempted
          · rfl
          · have := ht1 hval
            omega
        have hfd : t.deleteAttempted = false := by
          cases hval : t.deleteAttempted
          · rfl
          · have := ht2 hval
            omega
        have hnact : ¬ t.activeClose := by
          intro ha
          have := ha.2
          omega
        have hstep : taskStep c env store guard t
            = (store, guard,
              { t with done := true, response := some CloseResp.alreadyClosing }) := by
          simp [taskStep, hdf, h0, h1]
        rw [hstep]
        exact still_inactive_step_ok c guard o
          { t with done := true, response := some CloseResp.alreadyClosing }
          ⟨(fun hf => by
              have hf' : t.transcriptAttempted = true := hf
              rw [hft] at hf'
              cases hf'),
            (fun hf => by
              have hf' : t.deleteAttempted = true := hf
              rw [hfd] at hf'
              cases hf'),
            (fun hp => by
              have hp' : t.pc = 0 := hp
              exact absurd hp' h0),
            (fun _ _ => rfl)⟩
          (fun ha => by
            have hx : (true : Bool) = false := ha.1
            cases hx)
          ⟨(fun hin => by
              rcases hiff.mp hin with ha | ha
              · exact absurd ha hnact
              · exact ha),
            (fun ha => hiff.mpr (Or.inr ha))⟩
      · have hge2 : 2 ≤ t.pc := by omega
        have hact : t.activeClose := ⟨hdf, hge2⟩
        have hnoact : ¬ o.activeClose := fun ha => hmux ⟨hact, ha⟩
        have hmem : c ∈ guard := hiff.mpr (Or.inl hact)
        by_cases h2 : t.pc = 2
        · have hstep : taskStep c env store guard t
              = (store, setDiscard c guard,
                { t with done := true, response := some CloseResp.notTicket }) := by
            simp [taskStep, hdf, h0, h1, h2]
          rw [hstep]
          exact exit_step_ok c guard o
            { t with done := true, response := some CloseResp.notTicket } rfl
            (fun hp => h0 hp)
            (fun hp => absurd (show t.pc = 1 from hp) h1)
            (fun hf => ht1 hf) (fun hf => ht2 hf) hnoact
        · by_cases h3 : t.pc = 3
          · by_cases hr : env.userFetch = UserFetch.raised
            · have hstep : taskStep c env store guard t
                  = (store, setDiscard c guard, { t with done := true }) := by
                simp [taskStep, hdf, h0, h1, h2, h3, hr]
              rw [hstep]
              exact exit_step_ok c guard o { t with done := true } rfl
                (fun hp => h0 hp)
                (fun hp => absurd (show t.pc = 1 from hp) h1)
                (fun hf => ht1 hf) (fun hf => ht2 hf) hnoact
            · have hstep : taskStep c env store guard t
                  = (store, guard, { t with pc := 4, transcriptAttempted := true }) := by
                simp [taskStep, hdf, h0, h1, h2, h3, hr]
              rw [hstep]
              exact stay_step_ok c guard o
                { t with pc := 4, transcriptAttempted := true } hdf
                (by show (2 : Nat) ≤ 4; norm_num)
                (fun _ => by show (4 : Nat) ≤ 4; norm_num)
                (fun hf => by
                  have hf' : t.deleteAttempted = true := hf
                  have := ht2 hf'
                  omega)
                hmem hnoact
          · by_cases h4 : t.pc = 4
            · by_cases htrans : env.transcript = true
              · have hstep : taskStep c env store guard t
                    = (store, guard, { t with pc := 6 }) := by
                  simp [taskStep, hdf, h0, h1, h2, h3, h4, htrans]
                rw [hstep]
                exact stay_step_ok c guard o { t with pc := 6 } hdf
                  (by show (2 : Nat) ≤ 6; norm_num)
                  (fun _ => by show (4 : Nat) ≤ 6; norm_num)
                  (fun hf => by
                    have hf' : t.deleteAttempted = true := hf
                    have := ht2 hf'
                    omega)
                  hmem hnoact
              · have hstep : taskStep c env store guard t
                    = (store, guard, { t with pc := 5 }) := by
                  simp [taskStep, hdf, h0, h1, h2, h3, h4, htrans]
                rw [hstep]
                exact stay_step_ok c guard o { t with pc := 5 } hdf
                  (by show (2 : Nat) ≤ 5; norm_num)
                  (fun _ => by show (4 : Nat) ≤ 5; norm_num)
                  (fun hf => by
                    have hf' : t.deleteAttempted = true := hf
                    have := ht2 hf'
                    omega)
                  hmem hnoact
            · by_cases h5 : t.pc = 5
              · have hstep : taskStep c env store guard t
                    = (store, setDiscard c guard,
                      { t with done := true, response := some CloseResp.transcriptFail }) := by
                  simp [taskStep, hdf, h0, h1, h2, h3, h4, h5]
                rw [hstep]
                exact exit_step_ok c guard o
                  { t with done := true, response := some CloseResp.transcriptFail } rfl
                  (fun hp => h0 hp)
                  (fun hp => absurd (show t.pc = 1 from hp) h1)
                  (fun hf => ht1 hf) (fun hf => ht2 hf) hnoact
              · by_cases h6 : t.pc = 6
                · have hstep : taskStep c env store guard t
                      = (removeTicketEntries store (t.uid.getD 0) c, guard,
                        { t with pc := 7, deleteAttempted := true }) := by
                    simp [taskStep, hdf, h0, h1, h2, h3, h4, h5, h6]
                  rw [hstep]
                  exact stay_step_ok c guard o
                    { t with pc := 7, deleteAttempted := true } hdf
                    (by show (2 : Nat) ≤ 7; norm_num)
                    (fun _ => by show (4 : Nat) ≤ 7; norm_num)
                    (fun _ => by show (7 : Nat) ≤ 7; norm_num)
                    hmem hnoact
                · by_cases h7 : t.pc = 7
                  · have hstep : taskStep c env store guard t
                        = (store, guard, { t with pc := 8 }) := by
                      simp [taskStep, hdf, h0, h1, h2, h3, h4, h5, h6, h7]
                    rw [hstep]
                    exact stay_step_ok c guard o { t with pc := 8 } hdf
                      (by show (2 : Nat) ≤ 8; norm_num)
                      (fun _ => by show (4 : Nat) ≤ 8; norm_num)
                      (fun _ => by show (7 : Nat) ≤ 8; norm_num)
                      hmem hnoact
                  · have hstep : taskStep c env store guard t
                        = (store, setDiscard c guard,
                          { t with done := true, response := some CloseResp.closed }) := by
                      simp [taskStep, hdf, h0, h1, h2, h3, h4, h5, h6, h7]
                    rw [hstep]
                    exact exit_step_ok c guard o
                      { t with done := true, response := some CloseResp.closed } rfl
                      (fun hp => h0 hp)
                      (fun hp => absurd (show t.pc = 1 from hp) h1)
                      (fun hf => ht1 hf) (fun hf => ht2 hf) hnoact

theorem sysStep_preserves (c : Nat) (e0 e1 : CloseEnv) (s : CSys) (who : Bool)
    (hinv : sysInv c s) : sysInv c (sysStep c e0 e1 s who) := by
  obtain ⟨h0, h1, hiff, hmux⟩ := hinv
  cases who with
  | false =>
    have h := taskStep_preserves c e0 s.store s.guard s.t0 s.t1 h0 h1 hiff hmux
    exact ⟨h.1, h1, h.2.1, h.2.2⟩
  | true =>
    have hiff' : c ∈ s.guard ↔ (s.t1.activeClose ∨ s.t0.activeClose) := by
      rw [hiff]
      exact or_comm
    have hmux' : ¬ (s.t1.activeClose ∧ s.t0.activeClose) := fun h => hmux ⟨h.2, h.1⟩
    have h := taskStep_preserves c e1 s.store s.guard s.t1 s.t0 h1 h0 hiff' hmux'
    exact ⟨h0, h.1, (h.2.1).trans or_comm, fun hh => h.2.2 ⟨hh.2, hh.1⟩⟩

theorem sysInv_runClose (c : Nat) (e0 e1 : CloseEnv) (sched : List Bool) :
    ∀ s : CSys, sysInv c s → sysInv c (runClose c e0 e1 s sched) := by
  induction sched with
  | nil =>
    intro s h
    exact h
  | cons w rest ih =>
    intro s h
    exact ih (sysStep c e0 e1 s w) (sysStep_preserves c e0 e1 s w h)

theorem sysInv_init (c : Nat) (st : TicketStore) (g0 : List Nat) (hg : c ∉ g0) :
    sysInv c (initCloseSys st g0) := by
  refine ⟨⟨?_, ?_, ?_, ?_⟩, ⟨?_, ?_, ?_, ?_⟩, ?_, ?_⟩
  · intro hf
    cases hf
  · intro hf
    cases hf
  · intro _
    exact ⟨rfl, rfl⟩
  · intro hp
    cases hp
  · intro hf
    cases hf
  · intro hf
    cases hf
  · intro _
    exact ⟨rfl, rfl⟩
  · intro hp
    cases hp
  · constructor
    · intro hin
      exact absurd hin hg
    · intro h
      rcases h with ha | ha
      · have hx : (2 : Nat) ≤ 0 := ha.2
        omega
      · have hx : (2 : Nat) ≤ 0 := ha.2
        omega
  · intro h
    have hx : (2 : Nat) ≤ 0 := h.1.2
    omega

theorem runClose_append (c : Nat) (e0 e1 : CloseEnv) (s : CSys)
    (xs ys : List Bool) :
    runClose c e0 e1 s (xs ++ ys) = runClose c e0 e1 (runClose c e0 e1 s xs) ys := by
  simp [runClose, List.foldl_append]

theorem both_passed_sequential (c : Nat) (e0 e1 : CloseEnv) (st : TicketStore)
    (g0 : List Nat) (hg : c ∉ g0) :
    ∀ sched : List Bool,
      2 ≤ (runClose c e0 e1 (initCloseSys st g0) sched).t0.pc →
      2 ≤ (runClose c e0 e1 (initCloseSys st g0) sched).t1.pc →
      ∃ pre : List Bool, pre <+: sched ∧
        (((runClose c e0 e1 (initCloseSys st g0) pre).t0.done = true ∧
            (runClose c e0 e1 (initCloseSys st g0) pre).t1.pc = 0) ∨
          ((runClose c e0 e1 (initCloseSys st g0) pre).t1.done = true ∧
            (runClose c e0 e1 (initCloseSys st g0) pre).t0.pc = 0)) := by
  intro sched
  induction sched using List.reverseRecOn with
  | nil =>
    intro h0 _
    have hx : (2 : Nat) ≤ 0 := h0
    omega
  | append_singleton xs w ih =>
    intro h0 h1
    rw [runClose_append] at h0 h1
    have hInv : sysInv c (runClose c e0 e1 (initCloseSys st g0) xs) :=
      sysInv_runClose c e0 e1 xs _ (sysInv_init c st g0 hg)
    cases w with
    | false =>
      have h1' : 2 ≤ (runClose c e0 e1 (initCloseSys st g0) xs).t1.pc := h1
      by_cases hp0 : 2 ≤ (runClose c e0 e1 (initCloseSys st g0) xs).t0.pc
      · rcases ih hp0 h1' with ⟨pre, hpre, hc⟩
        exact ⟨pre, hpre.trans (List.prefix_append xs [false]), hc⟩
      · have h0' : 2 ≤ (taskStep c e0 (runClose c e0 e1 (initCloseSys st g0) xs).store
            (runClose c e0 e1 (initCloseSys st g0) xs).guard
            (runClose c e0 e1 (initCloseSys st g0) xs).t0).2.2.pc := h0
        set M := runClose c e0 e1 (initCloseSys st g0) xs with hMdef
        by_cases hdone : M.t0.done = true
        · have hid : taskStep c e0 M.store M.guard M.t0 = (M.store, M.guard, M.t0) := by
            simp [taskStep, hdone]
          rw [hid] at h0'
          exact absurd h0' hp0
        · have hdf : M.t0.done = false := by
            cases hv : M.t0.done
            · rfl
            · exact absurd hv hdone
          by_cases hz : M.t0.pc = 0
          · by_cases hmem : c ∈ M.guard
            · have hid : taskStep c e0 M.store M.guard M.t0
                  = (M.store, M.guard, { M.t0 with pc := 1 }) := by
                simp [taskStep, hdf, hz, hmem]
              rw [hid] at h0'
              have hx : (2 : Nat) ≤ 1 := h0'
              omega
            · have hnoact : ¬ M.t1.activeClose := by
                intro ha
                exact hmem (hInv.2.2.1.mpr (Or.inr ha))
              have ht1done : M.t1.done = true := by
                cases hv : M.t1.done
                · exact absurd ⟨hv, h1'⟩ hnoact
                · rfl
              exact ⟨xs, List.prefix_append xs [false], Or.inr ⟨ht1done, hz⟩⟩
          · have h1pc : M.t0.pc = 1 := by omega
            have hid : taskStep c e0 M.store M.guard M.t0
                = (M.store, M.guard,
                  { M.t0 with done := true, response := some CloseResp.alreadyClosing }) := by
              simp [taskStep, hdf, hz, h1pc]
            rw [hid] at h0'
            have hx : 2 ≤ M.t0.pc := h0'
            omega
    | true =>
      have h0' : 2 ≤ (runClose c e0 e1 (initCloseSys st g0) xs).t0.pc := h0
      by_cases hp1 : 2 ≤ (runClose c e0 e1 (initCloseSys st g0) xs).t1.pc
      · rcases ih h0' hp1 with ⟨pre, hpre, hc⟩
        exact ⟨pre, hpre.trans (List.prefix_append xs [true]), hc⟩
      · have h1' : 2 ≤ (taskStep c e1 (runClose c e0 e1 (initCloseSys st g0) xs).store
            (runClose c e0 e1 (initCloseSys st g0) xs).guard
            (runClose c e0 e1 (initCloseSys st g0) xs).t1).2.2.pc := h1
        set M := runClose c e0 e1 (initCloseSys st g0) xs with hMdef
        by_cases hdone : M.t1.done = true
        · have hid : taskStep c e1 M.store M.guard M.t1 = (M.store, M.guard, M.t1) := by
            simp [taskStep, hdone]
          rw [hid] at h1'
          exact absurd h1' hp1
        · have hdf : M.t1.done = false := by
            cases hv : M.t1.done
            · rfl
            · exact absurd hv hdone
          by_cases hz : M.t1.pc = 0
          · by_cases hmem : c ∈ M.guard
            · have hid : taskStep c e1 M.store M.guard M.t1
                  = (M.store, M.guard, { M.t1 with pc := 1 }) := by
                simp [taskStep, hdf, hz, hmem]
              rw [hid] at h1'
              have hx : (2 : Nat) ≤ 1 := h1'
              omega
            · have hnoact : ¬ M.t0.activeClose := by
                intro ha
                exact hmem (hInv.2.2.1.mpr (Or.inl ha))
              have ht0done : M.t0.done = true := by
                cases hv : M.t0.done
                · exact absurd ⟨hv, h0'⟩ hnoact
                · rfl
              exact ⟨xs, List.prefix_append xs [true], Or.inl ⟨ht0done, hz⟩⟩
          · have h1pc : M.t1.pc = 1 := by omega
            have hid : taskStep c e1 M.store M.guard M.t1
                = (M.store, M.guard,
                  { M.t1 with done := true, response := some CloseResp.alreadyClosing }) := by
              simp [taskStep, hdf, hz, h1pc]
            rw [hid] at h1'
            have hx : 2 ≤ M.t1.pc := h1'
            omega

/-- Claim C3.  For two close requests on the same channel run under any
interleaving of their atomic segments (the guard check-and-insert and
`channel_to_user` lookup form one non-suspending segment, as in the
source): at any reachable point at most one task holds the closing
guard; only a task that passed the guard ever attempts transcript
generation or channel deletion; a task that finishes without passing
the guard received the already-closing response and attempted neither;
if both tasks ever pass the guard then their executions were
sequential — some prefix of the schedule ends with one task finished
while the other has not yet run its guard check; and once both tasks
are finished the guard no longer contains the channel (released on
every exit path). -/
theorem close_ticket_concurrent_exclusion (c : Nat) (e0 e1 : CloseEnv)
    (st : TicketStore) (g0 : List Nat) (sched : List Bool) (hg : c ∉ g0) :
    ¬ ((runClose c e0 e1 (initCloseSys st g0) sched).t0.activeClose ∧
        (runClose c e0 e1 (initCloseSys st g0) sched).t1.activeClose) ∧
    ((runClose c e0 e1 (initCloseSys st g0) sched).t0.transcriptAttempted = true →
      2 ≤ (runClose c e0 e1 (initCloseSys st g0) sched).t0.pc) ∧
    ((runClose c e0 e1 (initCloseSys st g0) sched).t0.deleteAttempted = true →
      2 ≤ (runClose c e0 e1 (initCloseSys st g0) sched).t0.pc) ∧
    ((runClose c e0 e1 (initCloseSys st g0) sched).t1.transcriptAttempted = true →
      2 ≤ (runClose c e0 e1 (initCloseSys st g0) sched).t1.pc) ∧
    ((runClose c e0 e1 (initCloseSys st g0) sched).t1.deleteAttempted = true →
      2 ≤ (runClose c e0 e1 (initCloseSys st g0) sched).t1.pc) ∧
    ((runClose c e0 e1 (initCloseSys st g0) sched).t0.done = true →
      (runClose c e0 e1 (initCloseSys st g0) sched).t0.pc < 2 →
      (runClose c e0 e1 (initCloseSys st g0) sched).t0.response
          = some CloseResp.alreadyClosing ∧
        (runClose c e0 e1 (initCloseSys st g0) sched).t0.transcriptAttempted = false ∧
        (runClose c e0 e1 (initCloseSys st g0) sched).t0.deleteAttempted = false) ∧
    ((runClose c e0 e1 (initCloseSys st g0) sched).t1.done = true →
      (runClose c e0 e1 (initCloseSys st g0) sched).t1.pc < 2 →
      (runClose c e0 e1 (initCloseSys st g0) sched).t1.response
          = some CloseResp.alreadyClosing ∧
        (runClose c e0 e1 (initCloseSys st g0) sched).t1.transcriptAttempted = false ∧
        (runClose c e0 e1 (initCloseSys st g0) sched).t1.deleteAttempted = false) ∧
    (2 ≤ (runClose c e0 e1 (initCloseSys st g0) sched).t0.pc →
      2 ≤ (runClose c e0 e1 (initCloseSys st g0) sched).t1.pc →
      ∃ pre : List Bool, pre <+: sched ∧
        (((runClose c e0 e1 (initCloseSys st g0) pre).t0.done = true ∧
            (runClose c e0 e1 (initCloseSys st g0) pre).t1.pc = 0) ∨
          ((runClose c e0 e1 (initCloseSys st g0) pre).t1.done = true ∧
            (runClose c e0 e1 (initCloseSys st g0) pre).t0.pc = 0))) ∧
    ((runClose c e0 e1 (initCloseSys st g0) sched).t0.done = true →
      (runClose c e0 e1 (initCloseSys st g0) sched).t1.done = true →
      c ∉ (runClose c e0 e1 (initCloseSys st g0) sched).guard) := by
  have hInv : sysInv c (runClose c e0 e1 (initCloseSys st g0) sched) :=
    sysInv_runClose c e0 e1 sched _ (sysInv_init c st g0 hg)
  obtain ⟨hok0, hok1, hiff, hmux⟩ := hInv
  refine ⟨hmux, ?_, ?_, ?_, ?_, ?_, ?_, ?_, ?_⟩
  · intro hf
    have := hok0.1 hf
    omega
  · intro hf
    have := hok0.2.1 hf
    omega
  · intro hf
    have := hok1.1 hf
    omega
  · intro hf
    have := hok1.2.1 hf
    omega
  · intro hdone hlt
    have hnz : (runClose c e0 e1 (initCloseSys st g0) sched).t0.pc ≠ 0 := by
      intro hz
      have := (hok0.2.2.1 hz).1
      rw [hdone] at this
      cases this
    have hone : (runClose c e0 e1 (initCloseSys st g0) sched).t0.pc = 1 := by omega
    refine ⟨hok0.2.2.2 hone hdone, ?_, ?_⟩
    · cases hv : (runClose c e0 e1 (initCloseSys st g0) sched).t0.transcriptAttempted
      · rfl
      · have := hok0.1 hv
        omega
    · cases hv : (runClose c e0 e1 (initCloseSys st g0) sched).t0.deleteAttempted
      · rfl
      · have := hok0.2.1 hv
        omega
  · intro hdone hlt
    have hnz : (runClose c e0 e1 (initCloseSys st g0) sched).t1.pc ≠ 0 := by
      intro hz
      have := (hok1.2.2.1 hz).1
      rw [hdone] at this
      cases this
    have hone : (runClose c e0 e1 (initCloseSys st g0) sched).t1.pc = 1 := by omega
    refine ⟨hok1.2.2.2 hone hdone, ?_, ?_⟩
    · cases hv : (runClose c e0 e1 (initCloseSys st g0) sched).t1.transcriptAttempted
      · rfl
      · have := hok1.1 hv
        omega
    · cases hv : (runClose c e0 e1 (initCloseSys st g0) sched).t1.deleteAttempted
      · rfl
      · have := hok1.2.1 hv
        omega
  · exact both_passed_sequential c e0 e1 st g0 hg sched
  · intro hd0 hd1 hin
    rcases hiff.mp hin with ha | ha
    · have hx := ha.1
      rw [hd0] at hx
      cases hx
    · have hx := ha.1
      rw [hd1] at hx
      cases hx

/-- A fully successful close environment, for the C3 witness. -/
def closeEnvOk : CloseEnv :=
  ⟨UserFetch.found, true, true⟩

/-- Witness for the C3 theorem: channel 100, task 0 runs its entry
segment first and passes the guard, task 1 then observes the guard,
is rejected, and finishes with the already-closing response having
attempted neither transcript nor deletion. -/
theorem close_ticket_concurrent_exclusion_witness :
    ¬ ((runClose 100 closeEnvOk closeEnvOk (initCloseSys exampleStoreOneTicket [])
          [false, true, true]).t0.activeClose ∧
        (runClose 100 closeEnvOk closeEnvOk (initCloseSys exampleStoreOneTicket [])
          [false, true, true]).t1.activeClose) ∧
    ((runClose 100 closeEnvOk closeEnvOk (initCloseSys exampleStoreOneTicket [])
        [false, true, true]).t1.response = some CloseResp.alreadyClosing ∧
      (runClose 100 closeEnvOk closeEnvOk (initCloseSys exampleStoreOneTicket [])
        [false, true, true]).t1.transcriptAttempted = false ∧
      (runClose 100 closeEnvOk closeEnvOk (initCloseSys exampleStoreOneTicket [])
        [false, true, true]).t1.deleteAttempted = false) := by
  have h := close_ticket_concurrent_exclusion 100 closeEnvOk closeEnvOk
    exampleStoreOneTicket [] [false, true, true] (by decide)
  exact ⟨h.1, h.2.2.2.2.2.2.1 (by decide) (by decide)⟩
